/-
Verification of the AircraftPhysics flight-dynamics engine
(src/physics engine class `AircraftPhysics`, geo math utilities in
src/src/utils/math-helpers.ts, configuration in src/src/config/config.ts).

The JavaScript number type is modelled by the real numbers; THREE.Vector3 /
THREE.Vector2 / THREE.Euler are modelled by records of reals.  Console
logging and the `_lastAircraftLog` timestamp (which only gates logging)
are omitted: they have no effect on any state field.  Listener
notification is modelled by the snapshot value emitted by an operation
(`none` when no notification happens).  A separate small reference model
(`RefModel`) captures the JavaScript object-identity semantics of
`getState`'s spread copy, which the value-level model cannot express.
-/
import Mathlib

noncomputable section

/-- A THREE.Vector3 / THREE.Euler value: three number components. -/
structure Vec3 where
  x : ℝ
  y : ℝ
  z : ℝ
deriving DecidableEq

/-- A THREE.Vector2 value. -/
structure Vec2 where
  x : ℝ
  y : ℝ
deriving DecidableEq

/-- A geographic coordinate `{lng, lat}`. -/
structure GeoPos where
  lng : ℝ
  lat : ℝ
deriving DecidableEq

/-- THREE.Vector3.length(): `sqrt(x*x + y*y + z*z)`. -/
def norm3 (v : Vec3) : ℝ := Real.sqrt (v.x * v.x + v.y * v.y + v.z * v.z)

/-- THREE.Vector2.length(). -/
def norm2 (v : Vec2) : ℝ := Real.sqrt (v.x * v.x + v.y * v.y)

/-- THREE.Vector3.normalize(): `divideScalar(length() || 1)`; a zero vector
is left unchanged (division by the JavaScript `|| 1` fallback). -/
def jsNormalize3 (v : Vec3) : Vec3 :=
  if norm3 v = 0 then v else ⟨v.x / norm3 v, v.y / norm3 v, v.z / norm3 v⟩

/-- THREE.Vector2.normalize() with the same `|| 1` fallback. -/
def jsNormalize2 (v : Vec2) : Vec2 :=
  if norm2 v = 0 then v else ⟨v.x / norm2 v, v.y / norm2 v⟩

/-- JavaScript `Math.sign`. -/
def jsSign (x : ℝ) : ℝ := if 0 < x then 1 else if x < 0 then -1 else 0

/-- Truncation toward zero, as used by the JavaScript `%` operator. -/
def jsTrunc (x : ℝ) : ℤ := if 0 ≤ x then ⌊x⌋ else ⌈x⌉

/-- JavaScript remainder `a % b`: `a - b * trunc(a / b)` (sign of the dividend). -/
def jsMod (a b : ℝ) : ℝ := a - b * (jsTrunc (a / b) : ℝ)

/-- JavaScript `Math.atan2`. -/
def jsAtan2 (y x : ℝ) : ℝ :=
  if 0 < x then Real.arctan (y / x)
  else if x < 0 ∧ 0 ≤ y then Real.arctan (y / x) + Real.pi
  else if x < 0 ∧ y < 0 then Real.arctan (y / x) - Real.pi
  else if x = 0 ∧ 0 < y then Real.pi / 2
  else if x = 0 ∧ y < 0 then -(Real.pi / 2)
  else 0

/-! ### Configuration constants (src/src/config/config.ts) -/

/-- MAP_BOUNDARY.ENABLED. -/
def MAP_BOUNDARY_ENABLED : Bool := true
/-- MAP_BOUNDARY.RADIUS_KM. -/
def MAP_BOUNDARY_RADIUS_KM : ℝ := 10
/-- MAP_BOUNDARY.CENTER = DEFAULT_CENTER (Ho Chi Minh City). -/
def DEFAULT_CENTER : GeoPos := ⟨106.636, 10.811⟩
/-- MAP_BOUNDARY.FORCE_MULTIPLIER. -/
def MAP_BOUNDARY_FORCE_MULTIPLIER : ℝ := 3.0
/-- MAP_BOUNDARY.WARNING_THRESHOLD. -/
def MAP_BOUNDARY_WARNING_THRESHOLD : ℝ := 0.85
/-- MAP_BOUNDARY.HARD_BOUNDARY. -/
def MAP_BOUNDARY_HARD_BOUNDARY : Bool := true
/-- MAP_BOUNDARY.DISTANCE_CHECK_INTERVAL (milliseconds). -/
def MAP_BOUNDARY_DISTANCE_CHECK_INTERVAL : ℝ := 100

/-- AIRCRAFT.MAX_SPEED. -/
def MAX_SPEED : ℝ := 2.0
/-- AIRCRAFT.MAX_THROTTLE. -/
def MAX_THROTTLE : ℝ := 0.5
/-- AIRCRAFT.THROTTLE_CHANGE_RATE. -/
def THROTTLE_CHANGE_RATE : ℝ := 0.01
/-- AIRCRAFT.MIN_THROTTLE_TO_MOVE. -/
def MIN_THROTTLE_TO_MOVE : ℝ := 0.01
/-- AIRCRAFT.DECAY_RATES.HORIZONTAL. -/
def HORIZONTAL_DECAY_RATE : ℝ := 0.5
/-- AIRCRAFT.DECAY_RATES.VERTICAL. -/
def VERTICAL_DECAY_RATE : ℝ := 0.2
/-- AIRCRAFT.DECAY_RATES.THROTTLE. -/
def THROTTLE_DECAY_RATE : ℝ := 0.2
/-- AIRCRAFT.DEFAULT_ALTITUDE. -/
def AIRCRAFT_DEFAULT_ALTITUDE : ℝ := 0

/-- AIRCRAFT.PHYSICS.CONTROL_SENSITIVITY.PITCH. -/
def SENSITIVITY_PITCH : ℝ := 0.07
/-- AIRCRAFT.PHYSICS.CONTROL_SENSITIVITY.ROLL. -/
def SENSITIVITY_ROLL : ℝ := 0.07
/-- AIRCRAFT.PHYSICS.CONTROL_SENSITIVITY.YAW. -/
def SENSITIVITY_YAW : ℝ := 0.02
/-- AIRCRAFT.PHYSICS.MAX_ANGULAR_VELOCITY. -/
def MAX_ANGULAR_VELOCITY : ℝ := 1.5
/-- AIRCRAFT.PHYSICS.MAX_ROTATION (radians). -/
def MAX_ROTATION : ℝ := Real.pi / 2
/-- AIRCRAFT.PHYSICS.STABILIZATION.RATE (APPLY_TO_PITCH and APPLY_TO_ROLL are
both `true` in the configuration and are folded into the update below). -/
def STABILIZATION_RATE : ℝ := 0.03
/-- AIRCRAFT.PHYSICS.BANKING.ROLL_VELOCITY_THRESHOLD. -/
def ROLL_VELOCITY_THRESHOLD : ℝ := 0.001
/-- AIRCRAFT.PHYSICS.BANKING.OSCILLATION.MAGNITUDE_FACTOR. -/
def OSCILLATION_MAGNITUDE_FACTOR : ℝ := 0.005
/-- AIRCRAFT.PHYSICS.BANKING.OSCILLATION.FREQUENCY (ms). -/
def OSCILLATION_FREQUENCY : ℝ := 500
/-- AIRCRAFT.PHYSICS.BANKING.PITCH_COUPLING.MAGNITUDE_FACTOR. -/
def PITCH_COUPLING_MAGNITUDE_FACTOR : ℝ := 0.002
/-- AIRCRAFT.PHYSICS.BANKING.PITCH_COUPLING.YAW_VELOCITY_THRESHOLD. -/
def PITCH_COUPLING_YAW_VELOCITY_THRESHOLD : ℝ := 0.2
/-- AIRCRAFT.PHYSICS.DAMPING.BASE_DAMPING. -/
def BASE_DAMPING : ℝ := 0.95
/-- AIRCRAFT.PHYSICS.DAMPING.SPEED_DEPENDENT_FACTOR. -/
def SPEED_DEPENDENT_FACTOR : ℝ := 0.05
/-- AIRCRAFT.PHYSICS.DAMPING.SPEED_DIVISOR. -/
def SPEED_DIVISOR : ℝ := 15
/-- AIRCRAFT.PHYSICS.DAMPING.PHYSICS_RATE. -/
def PHYSICS_RATE : ℝ := 60
/-- AIRCRAFT.PHYSICS.FORWARD_MOVEMENT.THRUST_MULTIPLIER. -/
def THRUST_MULTIPLIER : ℝ := 3.0
/-- AIRCRAFT.PHYSICS.FORWARD_MOVEMENT.PITCH_INFLUENCE. -/
def FORWARD_PITCH_INFLUENCE : ℝ := 3.0
/-- AIRCRAFT.PHYSICS.ROLL_TURN.ROLL_FACTOR_EXPONENT. -/
def ROLL_FACTOR_EXPONENT : ℝ := 1.2
/-- AIRCRAFT.PHYSICS.ROLL_TURN.ROLL_FACTOR_MULTIPLIER. -/
def ROLL_FACTOR_MULTIPLIER : ℝ := 2.0
/-- AIRCRAFT.PHYSICS.ROLL_TURN.SPEED_INFLUENCE_BASE. -/
def SPEED_INFLUENCE_BASE : ℝ := 1.0
/-- AIRCRAFT.PHYSICS.ROLL_TURN.SPEED_INFLUENCE_FACTOR. -/
def SPEED_INFLUENCE_FACTOR : ℝ := 0.05
/-- AIRCRAFT.PHYSICS.ROLL_TURN.SPEED_INFLUENCE_MAX. -/
def SPEED_INFLUENCE_MAX : ℝ := 2.0
/-- AIRCRAFT.PHYSICS.BANK_LIFT_LOSS.ANGLE_THRESHOLD. -/
def BANK_LIFT_LOSS_ANGLE_THRESHOLD : ℝ := 0.7
/-- AIRCRAFT.PHYSICS.BANK_LIFT_LOSS.VERTICAL_THRUST_THRESHOLD. -/
def BANK_LIFT_LOSS_VERTICAL_THRUST_THRESHOLD : ℝ := 0.2
/-- AIRCRAFT.PHYSICS.BANK_LIFT_LOSS.MAX_LOSS_FACTOR. -/
def BANK_LIFT_LOSS_MAX_LOSS_FACTOR : ℝ := 0.5
/-- AIRCRAFT.PHYSICS.VERTICAL_THRUST.MULTIPLIER. -/
def VERTICAL_THRUST_MULTIPLIER : ℝ := 3.0

/-- AIRCRAFT.CONTROLS.BANK.TARGET_LEFT. -/
def BANK_TARGET_LEFT : ℝ := -35
/-- AIRCRAFT.CONTROLS.BANK.TARGET_RIGHT. -/
def BANK_TARGET_RIGHT : ℝ := 35
/-- AIRCRAFT.CONTROLS.BANK.MOMENTUM_FACTOR. -/
def BANK_MOMENTUM_FACTOR : ℝ := 0.3
/-- AIRCRAFT.CONTROLS.BANK.MOMENTUM_DAMPENING. -/
def BANK_MOMENTUM_DAMPENING : ℝ := 0.7
/-- AIRCRAFT.CONTROLS.BANK.ANGLE_BLEND_FACTOR. -/
def BANK_ANGLE_BLEND_FACTOR : ℝ := 0.15
/-- AIRCRAFT.CONTROLS.BANK.ANGLE_RETENTION_FACTOR. -/
def BANK_ANGLE_RETENTION_FACTOR : ℝ := 0.85
/-- AIRCRAFT.CONTROLS.BANK.MIN_ANGLE_FOR_TURN. -/
def BANK_MIN_ANGLE_FOR_TURN : ℝ := 5
/-- AIRCRAFT.CONTROLS.BANK.STEEP_TURN_THRESHOLD. -/
def BANK_STEEP_TURN_THRESHOLD : ℝ := 25
/-- AIRCRAFT.CONTROLS.TURN.AIRSPEED_BASE_MULTIPLIER. -/
def TURN_AIRSPEED_BASE_MULTIPLIER : ℝ := 0.3
/-- AIRCRAFT.CONTROLS.TURN.AIRSPEED_FACTOR. -/
def TURN_AIRSPEED_FACTOR : ℝ := 0.3
/-- AIRCRAFT.CONTROLS.TURN.MAX_TURN_RATE. -/
def TURN_MAX_TURN_RATE : ℝ := 1.2
/-- AIRCRAFT.CONTROLS.TURN.TURN_RATE_BASE_FACTOR. -/
def TURN_RATE_BASE_FACTOR : ℝ := 0.2
/-- AIRCRAFT.CONTROLS.TURN.TURN_RATE_BLEND_FACTOR. -/
def TURN_RATE_BLEND_FACTOR : ℝ := 0.3
/-- AIRCRAFT.CONTROLS.TURN.TURN_RATE_RETENTION_FACTOR. -/
def TURN_RATE_RETENTION_FACTOR : ℝ := 0.7
/-- AIRCRAFT.CONTROLS.TURN.BANK_COMPENSATION_DIVISOR. -/
def TURN_BANK_COMPENSATION_DIVISOR : ℝ := 45
/-- AIRCRAFT.CONTROLS.TURN.BANK_COMPENSATION_FACTOR. -/
def TURN_BANK_COMPENSATION_FACTOR : ℝ := 0.2
/-- AIRCRAFT.CONTROLS.SMOOTHING.DECAY_FACTOR. -/
def SMOOTHING_DECAY_FACTOR : ℝ := 0.8
/-- AIRCRAFT.CONTROLS.NO_THROTTLE_DECAY.BANK_ANGLE_DECAY. -/
def NO_THROTTLE_BANK_ANGLE_DECAY : ℝ := 0.9
/-- AIRCRAFT.CONTROLS.NO_THROTTLE_DECAY.TARGET_BANK_DECAY. -/
def NO_THROTTLE_TARGET_BANK_DECAY : ℝ := 0.9
/-- AIRCRAFT.CONTROLS.NO_THROTTLE_DECAY.BANK_MOMENTUM_DECAY. -/
def NO_THROTTLE_BANK_MOMENTUM_DECAY : ℝ := 0.8
/-- AIRCRAFT.CONTROLS.NO_THROTTLE_DECAY.TURN_YAW_RATE_DECAY. -/
def NO_THROTTLE_TURN_YAW_RATE_DECAY : ℝ := 0.8

/-! ### Geo math utilities (src/src/utils/math-helpers.ts and THREE.MathUtils) -/

/-- THREE.MathUtils.degToRad. -/
def degToRad (degrees : ℝ) : ℝ := degrees * (Real.pi / 180)

/-- radToDeg / THREE.MathUtils.radToDeg. -/
def radToDeg (radians : ℝ) : ℝ := radians * (180 / Real.pi)

/-- eulerToHPR: convert a YXZ Euler rotation to (heading, pitch, roll) in
degrees; the heading is reduced mod 360 and shifted into `[0, 360)` when
negative. -/
def eulerToHPR (euler : Vec3) : ℝ × ℝ × ℝ :=
  let heading := jsMod (radToDeg euler.y) 360
  let pitch := radToDeg euler.x
  let roll := radToDeg euler.z
  let normalizedHeading := if heading < 0 then heading + 360 else heading
  (normalizedHeading, pitch, roll)

/-- calculateGeoDistanceKm: haversine distance in kilometres between two
geographic coordinates, Earth radius 6371 km. -/
def calculateGeoDistanceKm (lon1 lat1 lon2 lat2 : ℝ) : ℝ :=
  let R : ℝ := 6371
  let dLat := degToRad (lat2 - lat1)
  let dLon := degToRad (lon2 - lon1)
  let a := Real.sin (dLat / 2) * Real.sin (dLat / 2) +
    Real.cos (degToRad lat1) * Real.cos (degToRad lat2) *
    Real.sin (dLon / 2) * Real.sin (dLon / 2)
  let c := 2 * jsAtan2 (Real.sqrt a) (Real.sqrt (1 - a))
  R * c

/-- calculateGeoDirection: normalized planar direction vector between two
geographic points, zero when the points coincide. -/
def calculateGeoDirection (fromLon fromLat toLon toLat : ℝ) : Vec2 :=
  let dLon := toLon - fromLon
  let dLat := toLat - fromLat
  let length := Real.sqrt (dLon * dLon + dLat * dLat)
  if length = 0 then ⟨0, 0⟩ else ⟨dLon / length, dLat / length⟩

/-! ### The flight dynamics engine (AircraftPhysics class) -/

/-- An AircraftControls record. -/
structure AircraftControls where
  pitch : ℝ
  roll : ℝ
  yaw : ℝ
  throttle : ℝ
  verticalThrust : ℝ
deriving DecidableEq

/-- The all-zero controls record used to initialise `prevControls`. -/
def zeroControls : AircraftControls := ⟨0, 0, 0, 0, 0⟩

/-- A BoundaryStatus record. -/
structure BoundaryStatus where
  distanceToCenter : ℝ
  distanceToEdge : ℝ
  percentToEdge : ℝ
  isCrossingBoundary : Bool
  isNearBoundary : Bool
  directionToCenter : Vec2
deriving DecidableEq

/-- The initial boundary status stored by the constructor. -/
def initialBoundaryStatus : BoundaryStatus := ⟨0, 0, 0, false, false, ⟨0, 0⟩⟩

/-- The AircraftState record owned by the engine. -/
structure AircraftState where
  position : Vec3
  velocity : Vec3
  speed : ℝ
  altitude : ℝ
  heading : ℝ
  pitch : ℝ
  roll : ℝ
  rotation : Vec3
  angularVelocity : Vec3
  throttle : ℝ
  isFlying : Bool
  isGrounded : Bool
  mapPosition : GeoPos
  boundaryStatus : BoundaryStatus
deriving DecidableEq

/-- The full private state of an AircraftPhysics instance (class fields
other than `state`; the listener array and logging timestamp are not part
of the physics state). -/
structure Engine where
  state : AircraftState
  bankAngle : ℝ
  targetBankAngle : ℝ
  bankMomentum : ℝ
  turnYawRate : ℝ
  prevControls : AircraftControls
  lastUpdateTime : ℝ
  lastBoundaryCheck : ℝ
  boundaryStatus : BoundaryStatus
  hasUserInput : Bool
deriving DecidableEq

/-- The constructor `new AircraftPhysics(initialHeadingDegrees)`, with
`nowMs` standing for the `performance.now()` call. -/
def initEngine (initialHeadingDegrees nowMs : ℝ) : Engine :=
  { state :=
      { position := ⟨0, AIRCRAFT_DEFAULT_ALTITUDE, 0⟩
        velocity := ⟨0, 0, 0⟩
        speed := 0
        altitude := AIRCRAFT_DEFAULT_ALTITUDE
        heading := initialHeadingDegrees
        pitch := 0
        roll := 0
        rotation := ⟨0, degToRad initialHeadingDegrees, 0⟩
        angularVelocity := ⟨0, 0, 0⟩
        throttle := 0
        isFlying := true
        isGrounded := false
        mapPosition := DEFAULT_CENTER
        boundaryStatus := initialBoundaryStatus }
    bankAngle := 0
    targetBankAngle := 0
    bankMomentum := 0
    turnYawRate := 0
    prevControls := zeroControls
    lastUpdateTime := nowMs
    lastBoundaryCheck := 0
    boundaryStatus := initialBoundaryStatus
    hasUserInput := false }

/-- getState(): `{ ...this.state }` — at the value level the snapshot is the
state record itself (the object-identity consequences of the shallow spread
are captured by `RefModel` below). -/
def getState (e : Engine) : AircraftState := e.state

/-- setHeading(headingDegrees): normalize into `[0, 360)`, store the heading
and its radian conversion into the state, and notify listeners (the emitted
snapshot is the second component). -/
def setHeading (e : Engine) (headingDegrees : ℝ) : Engine × AircraftState :=
  let normalizedHeading := jsMod (jsMod headingDegrees 360 + 360) 360
  let headingRadians := degToRad normalizedHeading
  let e' := { e with state := { e.state with
      heading := normalizedHeading
      rotation := { e.state.rotation with y := headingRadians } } }
  (e', getState e')

/-- processControls(rawControls): banking / coordinated-turn processing.
Returns the engine with updated bank fields and `prevControls`, together
with the returned (smoothed) controls record. -/
def processControls (e : Engine) (rawControls : AircraftControls) :
    Engine × AircraftControls :=
  -- roll input drives target bank angle and bank momentum
  let tb_bm : ℝ × ℝ :=
    if rawControls.roll < 0 then
      (BANK_TARGET_LEFT, e.bankMomentum - BANK_MOMENTUM_FACTOR)
    else if 0 < rawControls.roll then
      (BANK_TARGET_RIGHT, e.bankMomentum + BANK_MOMENTUM_FACTOR)
    else (0, e.bankMomentum * BANK_MOMENTUM_DAMPENING)
  let targetBankAngle := tb_bm.1
  let bankMomentum := tb_bm.2
  let coordinatedTurn := 0 < rawControls.throttle ∨ rawControls.throttle < 0
  let processed := rawControls
  -- coordinated turn physics, or decay of the bank state without throttle
  let next : Engine × AircraftControls :=
    if coordinatedTurn ∧ MIN_THROTTLE_TO_MOVE < e.state.throttle then
      let bankAngle := e.bankAngle * BANK_ANGLE_RETENTION_FACTOR +
        targetBankAngle * BANK_ANGLE_BLEND_FACTOR
      let airspeedMultiplier := TURN_AIRSPEED_BASE_MULTIPLIER +
        |e.state.throttle| * TURN_AIRSPEED_FACTOR
      if BANK_MIN_ANGLE_FOR_TURN < |bankAngle| then
        let bankRadians := |bankAngle| * (Real.pi / 180)
        let turnRate := min TURN_MAX_TURN_RATE
          (TURN_RATE_BASE_FACTOR * Real.tan bankRadians * airspeedMultiplier)
        let turnYawRate := e.turnYawRate * TURN_RATE_RETENTION_FACTOR +
          turnRate * TURN_RATE_BLEND_FACTOR
        let yaw1 := if processed.yaw = 0 then jsSign bankAngle * turnYawRate
          else processed.yaw
        let pitch1 :=
          if BANK_STEEP_TURN_THRESHOLD < |bankAngle| ∧ processed.pitch = 0 then
            processed.pitch - |bankAngle| / TURN_BANK_COMPENSATION_DIVISOR *
              TURN_BANK_COMPENSATION_FACTOR
          else processed.pitch
        ({ e with
             bankAngle := bankAngle
             targetBankAngle := targetBankAngle
             bankMomentum := bankMomentum
             turnYawRate := turnYawRate },
         { processed with yaw := yaw1, pitch := pitch1 })
      else
        ({ e with
             bankAngle := bankAngle
             targetBankAngle := targetBankAngle
             bankMomentum := bankMomentum }, processed)
    else
      ({ e with
           bankAngle := e.bankAngle * NO_THROTTLE_BANK_ANGLE_DECAY
           targetBankAngle := targetBankAngle * NO_THROTTLE_TARGET_BANK_DECAY
           bankMomentum := bankMomentum * NO_THROTTLE_BANK_MOMENTUM_DECAY
           turnYawRate := e.turnYawRate * NO_THROTTLE_TURN_YAW_RATE_DECAY },
       processed)
  let e1 := next.1
  let p := next.2
  -- control smoothing into prevControls; throttle passes through unsmoothed
  let prev : AircraftControls :=
    { pitch := if p.pitch ≠ 0 then p.pitch
        else e.prevControls.pitch * SMOOTHING_DECAY_FACTOR
      roll := if p.roll ≠ 0 then p.roll
        else e.prevControls.roll * SMOOTHING_DECAY_FACTOR
      yaw := if p.yaw ≠ 0 then p.yaw
        else e.prevControls.yaw * SMOOTHING_DECAY_FACTOR
      throttle := p.throttle
      verticalThrust := if p.verticalThrust ≠ 0 then p.verticalThrust
        else e.prevControls.verticalThrust * SMOOTHING_DECAY_FACTOR }
  ({ e1 with prevControls := prev }, prev)

/-- applyControlInputs(rawControls): integrate the processed controls into
the angular velocity and throttle with clamping. -/
def applyControlInputs (e : Engine) (rawControls : AircraftControls) : Engine :=
  let pc := processControls e rawControls
  let e1 := pc.1
  let controls := pc.2
  let av := e1.state.angularVelocity
  let avx := max (-MAX_ANGULAR_VELOCITY)
    (min MAX_ANGULAR_VELOCITY (av.x + controls.pitch * SENSITIVITY_PITCH))
  let avy := max (-MAX_ANGULAR_VELOCITY)
    (min MAX_ANGULAR_VELOCITY (av.y + controls.yaw * SENSITIVITY_YAW))
  let avz := max (-MAX_ANGULAR_VELOCITY)
    (min MAX_ANGULAR_VELOCITY (av.z + controls.roll * SENSITIVITY_ROLL))
  let throttle1 :=
    if controls.throttle ≠ 0 then
      max 0 (min MAX_THROTTLE
        (e1.state.throttle + controls.throttle * THROTTLE_CHANGE_RATE))
    else e1.state.throttle
  let rot := e1.state.rotation
  let rotx := max (-MAX_ROTATION) (min MAX_ROTATION rot.x)
  let rotz := max (-MAX_ROTATION) (min MAX_ROTATION rot.z)
  { e1 with
      hasUserInput := true
      state := { e1.state with
        angularVelocity := ⟨avx, avy, avz⟩
        throttle := throttle1
        rotation := ⟨rotx, rot.y, rotz⟩ } }

/-- updateBoundaryStatus(): recompute the cached boundary status from the
current map position (the `!this.state.mapPosition` guard never fires in
the model since the field is always present). -/
def updateBoundaryStatus (e : Engine) : Engine :=
  if MAP_BOUNDARY_ENABLED then
    let distanceToCenter := calculateGeoDistanceKm
      e.state.mapPosition.lng e.state.mapPosition.lat
      DEFAULT_CENTER.lng DEFAULT_CENTER.lat
    let distanceToEdge := MAP_BOUNDARY_RADIUS_KM - distanceToCenter
    let percentToEdge := distanceToCenter / MAP_BOUNDARY_RADIUS_KM
    let directionVector := calculateGeoDirection
      e.state.mapPosition.lng e.state.mapPosition.lat
      DEFAULT_CENTER.lng DEFAULT_CENTER.lat
    let directionToCenter : Vec2 := ⟨-directionVector.x, -directionVector.y⟩
    let bs : BoundaryStatus :=
      { distanceToCenter := distanceToCenter
        distanceToEdge := distanceToEdge
        percentToEdge := percentToEdge
        isCrossingBoundary := if distanceToEdge ≤ 0 then true else false
        isNearBoundary :=
          if MAP_BOUNDARY_WARNING_THRESHOLD ≤ percentToEdge ∧ percentToEdge < 1
          then true else false
        directionToCenter := directionToCenter }
    { e with boundaryStatus := bs, state := { e.state with boundaryStatus := bs } }
  else e

/-- applyBoundaryForce(forceMagnitude, deltaTime): add a horizontal force
toward the cached direction-to-center to the velocity. -/
def applyBoundaryForce (e : Engine) (forceMagnitude deltaTime : ℝ) : Engine :=
  if forceMagnitude ≤ 0 then e
  else
    let forceDirection := jsNormalize3
      ⟨e.boundaryStatus.directionToCenter.x, 0, e.boundaryStatus.directionToCenter.y⟩
    { e with state := { e.state with velocity :=
        { e.state.velocity with
            x := e.state.velocity.x + forceDirection.x * forceMagnitude * deltaTime * 5
            z := e.state.velocity.z + forceDirection.z * forceMagnitude * deltaTime * 5 } } }

/-- applyBoundaryForces(deltaTime): hard-boundary snap and velocity
reflection when crossing, a proportional warning force when near.  (In the
hard branch the code reuses the mutated, `safeRadius`-scaled `normalized`
vector as the boundary normal; the model reproduces that.) -/
def applyBoundaryForces (e : Engine) (deltaTime : ℝ) : Engine :=
  if MAP_BOUNDARY_ENABLED then
    if e.boundaryStatus.isCrossingBoundary then
      if MAP_BOUNDARY_HARD_BOUNDARY then
        let dirToAircraft : Vec2 :=
          ⟨e.state.mapPosition.lng - DEFAULT_CENTER.lng,
           e.state.mapPosition.lat - DEFAULT_CENTER.lat⟩
        let currentDistance := norm2 dirToAircraft
        if 0 < currentDistance then
          let normalized0 := jsNormalize2 dirToAircraft
          let boundaryRadius := MAP_BOUNDARY_RADIUS_KM * 0.00009
          let safeRadius := boundaryRadius * 0.99
          let normalized : Vec2 :=
            ⟨normalized0.x * safeRadius, normalized0.y * safeRadius⟩
          let newPos : GeoPos :=
            ⟨DEFAULT_CENTER.lng + normalized.x, DEFAULT_CENTER.lat + normalized.y⟩
          let velocityDirection := jsNormalize2
            ⟨e.state.velocity.x, e.state.velocity.z⟩
          let dotProduct := velocityDirection.x * normalized.x +
            velocityDirection.y * normalized.y
          let e1 := { e with state := { e.state with mapPosition := newPos } }
          if 0 < dotProduct then
            let outwardComponent := dotProduct * norm2 velocityDirection
            let reflectionFactor : ℝ := 1.2
            let dampingFactor : ℝ := 0.8
            { e1 with state := { e1.state with velocity :=
                { e1.state.velocity with
                    x := e1.state.velocity.x -
                      normalized.x * outwardComponent * reflectionFactor * dampingFactor
                    z := e1.state.velocity.z -
                      normalized.y * outwardComponent * reflectionFactor * dampingFactor } } }
          else e1
        else e
      else
        applyBoundaryForce e
          (|e.boundaryStatus.distanceToEdge| * MAP_BOUNDARY_FORCE_MULTIPLIER * 5)
          deltaTime
    else if e.boundaryStatus.isNearBoundary then
      let boundaryProximity :=
        (e.boundaryStatus.percentToEdge - MAP_BOUNDARY_WARNING_THRESHOLD) /
        (1 - MAP_BOUNDARY_WARNING_THRESHOLD)
      applyBoundaryForce e
        (boundaryProximity * MAP_BOUNDARY_FORCE_MULTIPLIER * 2) deltaTime
    else e
  else e

/-- Rotation integration and banking feel effects (the first block of
updateAircraftPhysics): `rotation += angularVelocity * deltaTime`, plus the
oscillation and adverse-yaw pitch-coupling terms when the roll rate is
active. -/
def integrateRotation (s : AircraftState) (deltaTime now : ℝ) : Vec3 :=
  let rot : Vec3 :=
    ⟨s.rotation.x + s.angularVelocity.x * deltaTime,
     s.rotation.y + s.angularVelocity.y * deltaTime,
     s.rotation.z + s.angularVelocity.z * deltaTime⟩
  if ROLL_VELOCITY_THRESHOLD < |s.angularVelocity.z| then
    let rollDirection := jsSign s.angularVelocity.z
    let rollMagnitude := |s.angularVelocity.z|
    let oscillationAmount := rollMagnitude * OSCILLATION_MAGNITUDE_FACTOR *
      Real.sin (now / OSCILLATION_FREQUENCY)
    let rot1 : Vec3 := ⟨rot.x, rot.y, rot.z + oscillationAmount⟩
    if |s.angularVelocity.y| < PITCH_COUPLING_YAW_VELOCITY_THRESHOLD then
      let pitchCoupling := |rollMagnitude| * PITCH_COUPLING_MAGNITUDE_FACTOR *
        (-rollDirection)
      ⟨rot1.x + pitchCoupling, rot1.y, rot1.z⟩
    else rot1
  else rot

/-- Speed-dependent exponential damping of the angular velocity. -/
def dampAngularVelocity (s : AircraftState) (deltaTime : ℝ) : Vec3 :=
  let speedFactor := min 1 (s.speed / SPEED_DIVISOR)
  let speedDependentDamping := BASE_DAMPING + SPEED_DEPENDENT_FACTOR * speedFactor
  let f := speedDependentDamping ^ (deltaTime * PHYSICS_RATE)
  ⟨s.angularVelocity.x * f, s.angularVelocity.y * f, s.angularVelocity.z * f⟩

/-- The forward unit vector `(0,0,-1)` rotated by the yaw-only rotation
matrix built in updateAircraftPhysics. -/
def forwardVector (yaw : ℝ) : Vec3 := ⟨-Real.sin yaw, 0, -Real.cos yaw⟩

/-- The right unit vector `(1,0,0)` rotated by the same yaw-only matrix. -/
def rightVector (yaw : ℝ) : Vec3 := ⟨Real.cos yaw, 0, -Real.sin yaw⟩

/-- Thrust, pitch/roll-driven acceleration and bank lift loss (applied only
above the minimum throttle), followed by the vertical-thrust acceleration.
`rot` is the already-integrated rotation of this tick. -/
def applyThrust (e : Engine) (rot : Vec3) (deltaTime : ℝ) : Vec3 :=
  let s := e.state
  let v1 : Vec3 :=
    if MIN_THROTTLE_TO_MOVE < s.throttle then
      let fwd := forwardVector rot.y
      let rgt := rightVector rot.y
      let forwardThrust := s.throttle * THRUST_MULTIPLIER
      let vx := s.velocity.x + fwd.x * forwardThrust * deltaTime
      let vz := s.velocity.z + fwd.z * forwardThrust * deltaTime
      let pitchFactor := rot.x * FORWARD_PITCH_INFLUENCE
      let rollRadians := rot.z
      let rollFactor := -(jsSign rollRadians) *
        (|rollRadians| * ROLL_FACTOR_MULTIPLIER) ^ ROLL_FACTOR_EXPONENT
      let vx := vx + fwd.x * pitchFactor * deltaTime
      let vz := vz + fwd.z * pitchFactor * deltaTime
      let speedInfluence := SPEED_INFLUENCE_BASE +
        s.speed / 20 * SPEED_INFLUENCE_FACTOR
      let adjustedSpeedInfluence := min speedInfluence SPEED_INFLUENCE_MAX
      let vx := vx + rgt.x * rollFactor * deltaTime * adjustedSpeedInfluence
      let vz := vz + rgt.z * rollFactor * deltaTime * adjustedSpeedInfluence
      let vy :=
        if BANK_LIFT_LOSS_ANGLE_THRESHOLD < |rollRadians| ∧
            e.prevControls.verticalThrust < BANK_LIFT_LOSS_VERTICAL_THRUST_THRESHOLD then
          s.velocity.y - (1 - Real.cos |rollRadians|) *
            BANK_LIFT_LOSS_MAX_LOSS_FACTOR * deltaTime
        else s.velocity.y
      ⟨vx, vy, vz⟩
    else s.velocity
  if e.prevControls.verticalThrust ≠ 0 then
    ⟨v1.x, v1.y + e.prevControls.verticalThrust * VERTICAL_THRUST_MULTIPLIER * deltaTime,
     v1.z⟩
  else v1

/-- Per-axis exponential drag. -/
def applyDrag (v : Vec3) (deltaTime : ℝ) : Vec3 :=
  ⟨v.x * (1 - HORIZONTAL_DECAY_RATE * deltaTime),
   v.y * (1 - VERTICAL_DECAY_RATE * deltaTime),
   v.z * (1 - HORIZONTAL_DECAY_RATE * deltaTime)⟩

/-- Throttle decay when there is no user input and the throttle is active. -/
def decayThrottle (e : Engine) (deltaTime : ℝ) : ℝ :=
  if (¬ e.hasUserInput) ∧ 0 < e.state.throttle then
    max 0 (e.state.throttle - THROTTLE_DECAY_RATE * deltaTime)
  else e.state.throttle

/-- Speed limiting: rescale the velocity to MAX_SPEED when its length
exceeds it. -/
def capSpeed (v : Vec3) : Vec3 :=
  if MAX_SPEED < norm3 v then
    let u := jsNormalize3 v
    ⟨u.x * MAX_SPEED, u.y * MAX_SPEED, u.z * MAX_SPEED⟩
  else v

/-- Auto-stabilization: exponentially relax pitch and roll toward level when
there is no user input (APPLY_TO_PITCH and APPLY_TO_ROLL are both true). -/
def stabilizeRotation (e : Engine) (rot : Vec3) (deltaTime : ℝ) : Vec3 :=
  if ¬ e.hasUserInput then
    let f := (1 - STABILIZATION_RATE) ^ (deltaTime * PHYSICS_RATE)
    ⟨rot.x * f, rot.y, rot.z * f⟩
  else rot

/-- Ground collision handling (updateAircraftPhysics, ground-clamp block):
clamp `position.y` to 0 and bounce (10% of the impact vertical speed, with
horizontal drag) on a hard impact, otherwise zero the vertical velocity. -/
def groundCollision (p v : Vec3) : Vec3 × Vec3 :=
  if p.y < 0 then
    if v.y < -0.5 then
      (⟨p.x, 0, p.z⟩, ⟨v.x * 0.8, |v.y| * 0.1, v.z * 0.8⟩)
    else
      (⟨p.x, 0, p.z⟩, ⟨v.x, 0, v.z⟩)
  else (p, v)

/-- updateAircraftPhysics(deltaTime, now): the aircraft force integration. -/
def updateAircraftPhysics (e : Engine) (deltaTime now : ℝ) : Engine :=
  let s := e.state
  let rot2 := integrateRotation s deltaTime now
  let av1 := dampAngularVelocity s deltaTime
  let v3 := applyDrag (applyThrust e rot2 deltaTime) deltaTime
  let throttle1 := decayThrottle e deltaTime
  let v4 := capSpeed v3
  let rot3 := stabilizeRotation e rot2 deltaTime
  let p1 : Vec3 :=
    ⟨s.position.x + v4.x * deltaTime,
     s.position.y + v4.y * deltaTime,
     s.position.z + v4.z * deltaTime⟩
  let pv := groundCollision p1 v4
  let p2 := pv.1
  let v5 := pv.2
  let hpr := eulerToHPR rot3
  { e with state := { s with
      rotation := rot3
      angularVelocity := av1
      velocity := v5
      position := p2
      throttle := throttle1
      heading := hpr.1
      pitch := hpr.2.1
      roll := hpr.2.2
      speed := norm3 v5
      altitude := p2.y
      isGrounded := if p2.y ≤ 0.5 then true else false
      isFlying := ! (if p2.y ≤ 0.5 then true else false) } }

/-- The boundary-status recomputation step of update: on a throttled
interval, recompute the status and record the check time. -/
def boundaryCheckStep (e : Engine) (now : ℝ) : Engine :=
  if MAP_BOUNDARY_ENABLED ∧
      MAP_BOUNDARY_DISTANCE_CHECK_INTERVAL < now - e.lastBoundaryCheck then
    { updateBoundaryStatus e with lastBoundaryCheck := now }
  else e

/-- update(currentTime): the per-frame entry point.  `now` stands for the
`Date.now()` reading.  The second component is the snapshot passed to the
registered listeners, or `none` when the physics step is skipped. -/
def update (e : Engine) (currentTime now : ℝ) : Engine × Option AircraftState :=
  let deltaTime := (currentTime - e.lastUpdateTime) / 1000
  let e0 := { e with lastUpdateTime := currentTime }
  if 0.1 < deltaTime then (e0, none)
  else
    let e1 := boundaryCheckStep e0 now
    let e2 := updateAircraftPhysics e1 deltaTime now
    let e3 :=
      if MAP_BOUNDARY_ENABLED ∧
          (e2.boundaryStatus.isNearBoundary ∨ e2.boundaryStatus.isCrossingBoundary) then
        applyBoundaryForces e2 deltaTime
      else e2
    ({ e3 with hasUserInput := false }, some (getState e3))

/-- Iterated idle ticks: no control input between updates, a fixed time step
`delta` in seconds, and an arbitrary `Date.now()` reading per tick. -/
def idleRun (e : Engine) (delta : ℝ) (nowAt : ℕ → ℝ) : ℕ → Engine
  | 0 => e
  | n + 1 =>
    let p := idleRun e delta nowAt n
    (update p (p.lastUpdateTime + 1000 * delta) (nowAt n)).1

/-- Modelled from the spec wording of update step 3 ("apply boundary forces
(4.3) before integrating aircraft forces"): a variant of `update` in which
the boundary forces are applied BEFORE `updateAircraftPhysics`.  Defined
only to compare the code's ordering against the spec's claimed ordering. -/
def updateBoundaryForcesFirstSpec (e : Engine) (currentTime now : ℝ) :
    Engine × Option AircraftState :=
  let deltaTime := (currentTime - e.lastUpdateTime) / 1000
  let e0 := { e with lastUpdateTime := currentTime }
  if 0.1 < deltaTime then (e0, none)
  else
    let e1 := boundaryCheckStep e0 now
    let e1f :=
      if MAP_BOUNDARY_ENABLED ∧
          (e1.boundaryStatus.isNearBoundary ∨ e1.boundaryStatus.isCrossingBoundary) then
        applyBoundaryForces e1 deltaTime
      else e1
    let e2 := updateAircraftPhysics e1f deltaTime now
    ({ e2 with hasUserInput := false }, some (getState e2))

/-! ### Concrete states used in the counterexamples and witnesses -/

/-- A cached boundary status inside the warning band (92.5% of the radius). -/
def nearStatus : BoundaryStatus := ⟨9.25, 0.75, 0.925, false, true, ⟨1, 0⟩⟩

/-- A concrete engine cruising at the speed limit boundary of behaviours:
level flight, velocity `(1,0,0)`, cached status in the warning band, last
boundary check at time 0. -/
def nearEngine : Engine :=
  { state :=
      { position := ⟨0, 10, 0⟩
        velocity := ⟨1, 0, 0⟩
        speed := 0
        altitude := 10
        heading := 0
        pitch := 0
        roll := 0
        rotation := ⟨0, 0, 0⟩
        angularVelocity := ⟨0, 0, 0⟩
        throttle := 0
        isFlying := true
        isGrounded := false
        mapPosition := DEFAULT_CENTER
        boundaryStatus := nearStatus }
    bankAngle := 0
    targetBankAngle := 0
    bankMomentum := 0
    turnYawRate := 0
    prevControls := zeroControls
    lastUpdateTime := 0
    lastBoundaryCheck := 0
    boundaryStatus := nearStatus
    hasUserInput := false }

/-- The state of `nearEngine` after one `update` at time 100 (code order:
integrate and clamp first, then add the boundary force). -/
def nearResult : Engine :=
  { nearEngine with
      lastUpdateTime := 100
      hasUserInput := false
      state := { nearEngine.state with
        velocity := ⟨2.45, 0, 0⟩
        position := ⟨0.095, 10, 0⟩
        speed := 0.95 } }

/-- `nearEngine` with the boundary force already applied (the intermediate
state of the spec-order variant). -/
def nearForced : Engine :=
  { nearEngine with
      lastUpdateTime := 100
      state := { nearEngine.state with velocity := ⟨2.5, 0, 0⟩ } }

/-- A concrete engine with residual pitch angular velocity, level rotation
and no input: the starting state of the idle-decay counterexample. -/
def spinEngine : Engine :=
  { nearEngine with
      state := { nearEngine.state with
        angularVelocity := ⟨1, 0, 0⟩
        velocity := ⟨0, 0, 0⟩
        boundaryStatus := initialBoundaryStatus }
      boundaryStatus := initialBoundaryStatus }

/-- An engine whose map position has been moved to `p` (as the external
map synchronizer does), used to probe the boundary-status computation. -/
def mapEngine (p : GeoPos) : Engine :=
  { nearEngine with state := { nearEngine.state with mapPosition := p } }

/-! ### Reference-semantics model of the snapshot hand-out

JavaScript objects are passed by reference.  `getState` returns
`{ ...this.state }`: the top-level fields are copied, but the nested
`position` / `velocity` / `rotation` / `angularVelocity` objects are the
same heap objects as the engine's.  This small model makes those object
identities explicit: vector-valued fields are heap references into a store
of `Vec3` cells, scalar fields are copied values. -/

namespace RefModel

/-- The mutable heap of THREE vector/Euler objects, addressed by reference. -/
structure Heap where
  vec : ℕ → Vec3

/-- Overwrite the object behind reference `r` (a listener mutating a nested
object of a snapshot it received). -/
def writeVec (h : Heap) (r : ℕ) (v : Vec3) : Heap :=
  ⟨fun i => if i = r then v else h.vec i⟩

/-- The AircraftState object: nested objects are references, scalars are
plain values. -/
structure StateObj where
  positionRef : ℕ
  velocityRef : ℕ
  rotationRef : ℕ
  angularVelocityRef : ℕ
  speed : ℝ
  altitude : ℝ
  heading : ℝ
  pitch : ℝ
  roll : ℝ
  throttle : ℝ
  isFlying : Bool
  isGrounded : Bool
deriving DecidableEq

/-- The engine, owning its state object. -/
structure EngineObj where
  state : StateObj
deriving DecidableEq

/-- getState(): `{ ...this.state }` — the spread copies every top-level
field (including the references held in the vector-valued fields) into a
fresh object, so the returned record carries the same references and the
same scalar values. -/
def getState (e : EngineObj) : StateObj := e.state

/-- The position the engine observes: the heap cell behind its own
`positionRef`. -/
def enginePosition (e : EngineObj) (h : Heap) : Vec3 := h.vec e.state.positionRef

/-- The velocity the engine observes. -/
def engineVelocity (e : EngineObj) (h : Heap) : Vec3 := h.vec e.state.velocityRef

/-- The rotation the engine observes. -/
def engineRotation (e : EngineObj) (h : Heap) : Vec3 := h.vec e.state.rotationRef

/-- A concrete engine and heap used to exhibit the aliasing. -/
def sampleEngine : EngineObj :=
  ⟨⟨0, 1, 2, 3, 0, 120, 0, 0, 0, 0, true, false⟩⟩

/-- The concrete heap: position `(1,2,3)`, everything else zero. -/
def sampleHeap : Heap :=
  ⟨fun i => if i = 0 then ⟨1, 2, 3⟩ else ⟨0, 0, 0⟩⟩

end RefModel

/-! ### Helper lemmas -/

theorem norm3_nonneg (v : Vec3) : 0 ≤ norm3 v := Real.sqrt_nonneg _

theorem norm3_zero : norm3 ⟨0, 0, 0⟩ = 0 := by
  simp [norm3]

theorem norm3_single (a : ℝ) (h : 0 ≤ a) : norm3 ⟨a, 0, 0⟩ = a := by
  have : a * a + 0 * 0 + 0 * 0 = a ^ 2 := by ring
  rw [norm3, this, Real.sqrt_sq h]

/-- Componentwise domination of sums of squares gives norm monotonicity. -/
theorem norm3_le_norm3 (v w : Vec3)
    (h : v.x * v.x + v.y * v.y + v.z * v.z ≤ w.x * w.x + w.y * w.y + w.z * w.z) :
    norm3 v ≤ norm3 w := Real.sqrt_le_sqrt h

theorem norm3_smul (c : ℝ) (v : Vec3) :
    norm3 ⟨v.x * c, v.y * c, v.z * c⟩ = |c| * norm3 v := by
  have h : v.x * c * (v.x * c) + v.y * c * (v.y * c) + v.z * c * (v.z * c) =
      c ^ 2 * (v.x * v.x + v.y * v.y + v.z * v.z) := by ring
  rw [norm3, h, Real.sqrt_mul (sq_nonneg c), Real.sqrt_sq_eq_abs, norm3]

/-- capSpeed always leaves the velocity length at most MAX_SPEED. -/
theorem capSpeed_norm_le (v : Vec3) : norm3 (capSpeed v) ≤ MAX_SPEED := by
  unfold capSpeed
  by_cases h : MAX_SPEED < norm3 v
  · rw [if_pos h]
    have hn : norm3 v ≠ 0 := by
      have : (0 : ℝ) < norm3 v := lt_trans (by norm_num [MAX_SPEED]) h
      exact ne_of_gt this
    have hpos : (0 : ℝ) < norm3 v := lt_trans (by norm_num [MAX_SPEED]) h
    unfold jsNormalize3
    rw [if_neg hn]
    have : norm3 ⟨v.x / norm3 v * MAX_SPEED, v.y / norm3 v * MAX_SPEED,
        v.z / norm3 v * MAX_SPEED⟩ =
        |MAX_SPEED / norm3 v| * norm3 v := by
      have hx : v.x / norm3 v * MAX_SPEED = v.x * (MAX_SPEED / norm3 v) := by ring
      have hy : v.y / norm3 v * MAX_SPEED = v.y * (MAX_SPEED / norm3 v) := by ring
      have hz : v.z / norm3 v * MAX_SPEED = v.z * (MAX_SPEED / norm3 v) := by ring
      rw [hx, hy, hz]
      exact norm3_smul (MAX_SPEED / norm3 v) v
    rw [this, abs_of_nonneg (div_nonneg (by norm_num [MAX_SPEED]) (le_of_lt hpos))]
    rw [div_mul_cancel₀ _ hn]
  · rw [if_neg h]
    exact le_of_not_lt h

/-- Ground collision never increases the velocity length. -/
theorem groundCollision_norm_le (p v : Vec3) :
    norm3 (groundCollision p v).2 ≤ norm3 v := by
  unfold groundCollision
  by_cases hp : p.y < 0
  · rw [if_pos hp]
    by_cases hv : v.y < -0.5
    · rw [if_pos hv]
      apply norm3_le_norm3
      have habs : |v.y| * 0.1 * (|v.y| * 0.1) = 0.01 * (v.y * v.y) := by
        have : |v.y| * |v.y| = v.y * v.y := abs_mul_abs_self v.y
        nlinarith [this]
      simp only
      nlinarith [sq_nonneg v.x, sq_nonneg v.y, sq_nonneg v.z, abs_mul_abs_self v.y]
    · rw [if_neg hv]
      apply norm3_le_norm3
      simp only
      nlinarith [sq_nonneg v.y]
  · rw [if_neg hp]

/-- The clamped ground position is never below ground. -/
theorem groundCollision_y_nonneg (p v : Vec3) :
    0 ≤ (groundCollision p v).1.y := by
  unfold groundCollision
  by_cases hp : p.y < 0
  · rw [if_pos hp]
    by_cases hv : v.y < -0.5
    · rw [if_pos hv]
    · rw [if_neg hv]
  · rw [if_neg hp]
    exact le_of_not_lt hp

/-- updateAircraftPhysics only changes the aircraft state record: the cached
engine-level boundary status is untouched. -/
theorem updateAircraftPhysics_boundaryStatus (e : Engine) (deltaTime now : ℝ) :
    (updateAircraftPhysics e deltaTime now).boundaryStatus = e.boundaryStatus := rfl

/-- The position produced by updateAircraftPhysics is never below ground. -/
theorem updateAircraftPhysics_y_nonneg (e : Engine) (deltaTime now : ℝ) :
    0 ≤ (updateAircraftPhysics e deltaTime now).state.position.y :=
  groundCollision_y_nonneg _ _

/-- The velocity produced by updateAircraftPhysics respects the speed cap. -/
theorem updateAircraftPhysics_norm_le (e : Engine) (deltaTime now : ℝ) :
    norm3 (updateAircraftPhysics e deltaTime now).state.velocity ≤ MAX_SPEED :=
  le_trans (groundCollision_norm_le _ _) (capSpeed_norm_le _)

/-- After updateAircraftPhysics the derived speed field is the length of the
final velocity of that step. -/
theorem updateAircraftPhysics_speed_eq (e : Engine) (deltaTime now : ℝ) :
    (updateAircraftPhysics e deltaTime now).state.speed =
      norm3 (updateAircraftPhysics e deltaTime now).state.velocity := rfl

/-- applyBoundaryForce changes only the velocity. -/
theorem applyBoundaryForce_position (e : Engine) (m dt : ℝ) :
    (applyBoundaryForce e m dt).state.position = e.state.position := by
  unfold applyBoundaryForce
  split <;> rfl

theorem applyBoundaryForce_rotation (e : Engine) (m dt : ℝ) :
    (applyBoundaryForce e m dt).state.rotation = e.state.rotation := by
  unfold applyBoundaryForce
  split <;> rfl

theorem applyBoundaryForce_throttle (e : Engine) (m dt : ℝ) :
    (applyBoundaryForce e m dt).state.throttle = e.state.throttle := by
  unfold applyBoundaryForce
  split <;> rfl

theorem applyBoundaryForce_angularVelocity (e : Engine) (m dt : ℝ) :
    (applyBoundaryForce e m dt).state.angularVelocity = e.state.angularVelocity := by
  unfold applyBoundaryForce
  split <;> rfl

/-- applyBoundaryForces changes only the velocity and the map position. -/
theorem applyBoundaryForces_position (e : Engine) (dt : ℝ) :
    (applyBoundaryForces e dt).state.position = e.state.position := by
  unfold applyBoundaryForces applyBoundaryForce
  simp only []
  split_ifs <;> rfl

theorem applyBoundaryForces_rotation (e : Engine) (dt : ℝ) :
    (applyBoundaryForces e dt).state.rotation = e.state.rotation := by
  unfold applyBoundaryForces applyBoundaryForce
  simp only []
  split_ifs <;> rfl

theorem applyBoundaryForces_throttle (e : Engine) (dt : ℝ) :
    (applyBoundaryForces e dt).state.throttle = e.state.throttle := by
  unfold applyBoundaryForces applyBoundaryForce
  simp only []
  split_ifs <;> rfl

theorem applyBoundaryForces_angularVelocity (e : Engine) (dt : ℝ) :
    (applyBoundaryForces e dt).state.angularVelocity = e.state.angularVelocity := by
  unfold applyBoundaryForces applyBoundaryForce
  simp only []
  split_ifs <;> rfl

/-- updateBoundaryStatus changes only the two boundary-status fields. -/
theorem updateBoundaryStatus_position (e : Engine) :
    (updateBoundaryStatus e).state.position = e.state.position := by
  unfold updateBoundaryStatus
  split <;> rfl

theorem updateBoundaryStatus_rotation (e : Engine) :
    (updateBoundaryStatus e).state.rotation = e.state.rotation := by
  unfold updateBoundaryStatus
  split <;> rfl

theorem updateBoundaryStatus_throttle (e : Engine) :
    (updateBoundaryStatus e).state.throttle = e.state.throttle := by
  unfold updateBoundaryStatus
  split <;> rfl

theorem updateBoundaryStatus_angularVelocity (e : Engine) :
    (updateBoundaryStatus e).state.angularVelocity = e.state.angularVelocity := by
  unfold updateBoundaryStatus
  split <;> rfl

theorem updateBoundaryStatus_velocity (e : Engine) :
    (updateBoundaryStatus e).state.velocity = e.state.velocity := by
  unfold updateBoundaryStatus
  split <;> rfl

theorem updateBoundaryStatus_speed (e : Engine) :
    (updateBoundaryStatus e).state.speed = e.state.speed := by
  unfold updateBoundaryStatus
  split <;> rfl

theorem updateBoundaryStatus_hasUserInput (e : Engine) :
    (updateBoundaryStatus e).hasUserInput = e.hasUserInput := by
  unfold updateBoundaryStatus
  split <;> rfl

theorem updateBoundaryStatus_prevControls (e : Engine) :
    (updateBoundaryStatus e).prevControls = e.prevControls := by
  unfold updateBoundaryStatus
  split <;> rfl

theorem boundaryCheckStep_position (e : Engine) (now : ℝ) :
    (boundaryCheckStep e now).state.position = e.state.position := by
  unfold boundaryCheckStep
  split
  · exact updateBoundaryStatus_position _
  · rfl

theorem boundaryCheckStep_rotation (e : Engine) (now : ℝ) :
    (boundaryCheckStep e now).state.rotation = e.state.rotation := by
  unfold boundaryCheckStep
  split
  · exact updateBoundaryStatus_rotation _
  · rfl

theorem boundaryCheckStep_throttle (e : Engine) (now : ℝ) :
    (boundaryCheckStep e now).state.throttle = e.state.throttle := by
  unfold boundaryCheckStep
  split
  · exact updateBoundaryStatus_throttle _
  · rfl

theorem boundaryCheckStep_angularVelocity (e : Engine) (now : ℝ) :
    (boundaryCheckStep e now).state.angularVelocity = e.state.angularVelocity := by
  unfold boundaryCheckStep
  split
  · exact updateBoundaryStatus_angularVelocity _
  · rfl

theorem boundaryCheckStep_velocity (e : Engine) (now : ℝ) :
    (boundaryCheckStep e now).state.velocity = e.state.velocity := by
  unfold boundaryCheckStep
  split
  · exact updateBoundaryStatus_velocity _
  · rfl

theorem boundaryCheckStep_speed (e : Engine) (now : ℝ) :
    (boundaryCheckStep e now).state.speed = e.state.speed := by
  unfold boundaryCheckStep
  split
  · exact updateBoundaryStatus_speed _
  · rfl

theorem boundaryCheckStep_hasUserInput (e : Engine) (now : ℝ) :
    (boundaryCheckStep e now).hasUserInput = e.hasUserInput := by
  unfold boundaryCheckStep
  split
  · exact updateBoundaryStatus_hasUserInput _
  · rfl

theorem boundaryCheckStep_prevControls (e : Engine) (now : ℝ) :
    (boundaryCheckStep e now).prevControls = e.prevControls := by
  unfold boundaryCheckStep
  split
  · exact updateBoundaryStatus_prevControls _
  · rfl

/-- The stale-timestamp guard: a large delta skips the whole physics step,
records the timestamp and emits no notification. -/
theorem update_skip (e : Engine) (currentTime now : ℝ)
    (h : 0.1 < (currentTime - e.lastUpdateTime) / 1000) :
    update e currentTime now = ({ e with lastUpdateTime := currentTime }, none) := by
  unfold update
  rw [if_pos h]

/-- The non-skip unfolding of update. -/
theorem update_run (e : Engine) (currentTime now : ℝ)
    (h : ¬ 0.1 < (currentTime - e.lastUpdateTime) / 1000) :
    update e currentTime now =
      (let e1 := boundaryCheckStep { e with lastUpdateTime := currentTime } now
       let e2 := updateAircraftPhysics e1 ((currentTime - e.lastUpdateTime) / 1000) now
       let e3 :=
         if MAP_BOUNDARY_ENABLED ∧
             (e2.boundaryStatus.isNearBoundary ∨ e2.boundaryStatus.isCrossingBoundary) then
           applyBoundaryForces e2 ((currentTime - e.lastUpdateTime) / 1000)
         else e2
       ({ e3 with hasUserInput := false }, some (getState e3))) := by
  unfold update
  rw [if_neg h]

/-- Projection: the rotation after updateAircraftPhysics is the stabilized
integrated rotation. -/
theorem updateAircraftPhysics_rotation (e : Engine) (deltaTime now : ℝ) :
    (updateAircraftPhysics e deltaTime now).state.rotation =
      stabilizeRotation e (integrateRotation e.state deltaTime now) deltaTime := rfl

/-- Projection: the throttle after updateAircraftPhysics is the decayed
throttle. -/
theorem updateAircraftPhysics_throttle (e : Engine) (deltaTime now : ℝ) :
    (updateAircraftPhysics e deltaTime now).state.throttle =
      decayThrottle e deltaTime := rfl

/-- Projection: the angular velocity after updateAircraftPhysics is the
damped angular velocity. -/
theorem updateAircraftPhysics_angularVelocity (e : Engine) (deltaTime now : ℝ) :
    (updateAircraftPhysics e deltaTime now).state.angularVelocity =
      dampAngularVelocity e.state deltaTime := rfl

/-- Throttle decay never increases the throttle when time moves forward. -/
theorem decayThrottle_le (e : Engine) (deltaTime : ℝ) (h : 0 ≤ deltaTime) :
    decayThrottle e deltaTime ≤ e.state.throttle := by
  unfold decayThrottle
  split_ifs with hc
  · apply max_le
    · exact le_of_lt hc.2
    · have : 0 ≤ THROTTLE_DECAY_RATE * deltaTime := by
        apply mul_nonneg _ h
        norm_num [THROTTLE_DECAY_RATE]
      linarith
  · exact le_refl _

/-- One physics step of `nearEngine` (before any boundary force): the
velocity is dragged to 0.95 and both the clamp and the derived speed see
that value. -/
theorem nearEngine_physics :
    updateAircraftPhysics { nearEngine with lastUpdateTime := 100 } 0.1 0 =
      { nearEngine with
          lastUpdateTime := 100
          state := { nearEngine.state with
            velocity := ⟨0.95, 0, 0⟩
            position := ⟨0.095, 10, 0⟩
            speed := 0.95 } } := by
  have hn : norm3 ⟨(19/20:ℝ), 0, 0⟩ = 19/20 := norm3_single _ (by norm_num)
  norm_num [updateAircraftPhysics, integrateRotation, dampAngularVelocity, applyThrust,
    applyDrag, decayThrottle, capSpeed, stabilizeRotation, groundCollision, eulerToHPR,
    nearEngine, nearStatus, zeroControls, jsMod, jsTrunc, radToDeg,
    MIN_THROTTLE_TO_MOVE, HORIZONTAL_DECAY_RATE, VERTICAL_DECAY_RATE, MAX_SPEED,
    ROLL_VELOCITY_THRESHOLD, THROTTLE_DECAY_RATE, hn]

/-- One full update of `nearEngine`: the boundary force is added after the
integration and the speed clamp, leaving velocity `(2.45, 0, 0)` while the
`speed` field still carries the pre-force value 0.95. -/
theorem nearEngine_update :
    update nearEngine 100 0 = (nearResult, some nearResult.state) := by
  have h0 : ¬ (0.1:ℝ) < (100 - nearEngine.lastUpdateTime) / 1000 := by
    norm_num [nearEngine]
  rw [update_run _ _ _ h0]
  have hdt : (100 - nearEngine.lastUpdateTime) / 1000 = (0.1:ℝ) := by
    norm_num [nearEngine]
  rw [hdt]
  have h1 : boundaryCheckStep { nearEngine with lastUpdateTime := 100 } 0 =
      { nearEngine with lastUpdateTime := 100 } := by
    unfold boundaryCheckStep
    rw [if_neg]
    simp [nearEngine, MAP_BOUNDARY_DISTANCE_CHECK_INTERVAL]
  simp only []
  rw [h1, nearEngine_physics]
  have hn1 : norm3 ⟨(1:ℝ), 0, 0⟩ = 1 := norm3_single _ (by norm_num)
  norm_num [applyBoundaryForces, applyBoundaryForce, jsNormalize3, hn1,
    nearEngine, nearStatus, nearResult, getState,
    MAP_BOUNDARY_ENABLED, MAP_BOUNDARY_WARNING_THRESHOLD, MAP_BOUNDARY_FORCE_MULTIPLIER]

/-- Applying the boundary force of the warning band to `nearEngine` first
(the spec's claimed order) yields velocity `(2.5, 0, 0)`. -/
theorem nearEngine_forced :
    applyBoundaryForces { nearEngine with lastUpdateTime := 100 } 0.1 = nearForced := by
  have hn1 : norm3 ⟨(1:ℝ), 0, 0⟩ = 1 := norm3_single _ (by norm_num)
  norm_num [applyBoundaryForces, applyBoundaryForce, jsNormalize3, hn1,
    nearEngine, nearStatus, nearForced,
    MAP_BOUNDARY_ENABLED, MAP_BOUNDARY_WARNING_THRESHOLD, MAP_BOUNDARY_FORCE_MULTIPLIER]

/-- Integrating after the force (the spec's claimed order): drag brings the
velocity to 2.375, and the speed cap rescales it to exactly MAX_SPEED. -/
theorem nearForced_physics :
    updateAircraftPhysics nearForced 0.1 0 =
      { nearForced with
          state := { nearForced.state with
            velocity := ⟨2, 0, 0⟩
            position := ⟨0.2, 10, 0⟩
            speed := 2 } } := by
  have hn : norm3 ⟨(19/8:ℝ), 0, 0⟩ = 19/8 := norm3_single _ (by norm_num)
  have hn2 : norm3 ⟨(2:ℝ), 0, 0⟩ = 2 := norm3_single _ (by norm_num)
  norm_num [updateAircraftPhysics, integrateRotation, dampAngularVelocity, applyThrust,
    applyDrag, decayThrottle, capSpeed, stabilizeRotation, groundCollision, eulerToHPR,
    jsNormalize3, nearForced, nearEngine, nearStatus, zeroControls, jsMod, jsTrunc, radToDeg,
    MIN_THROTTLE_TO_MOVE, HORIZONTAL_DECAY_RATE, VERTICAL_DECAY_RATE, MAX_SPEED,
    ROLL_VELOCITY_THRESHOLD, THROTTLE_DECAY_RATE, hn, hn2]

/-- The spec-order variant maps `nearEngine` to final velocity `(2, 0, 0)`. -/
theorem nearEngine_specOrder :
    (updateBoundaryForcesFirstSpec nearEngine 100 0).1.state.velocity = ⟨2, 0, 0⟩ := by
  unfold updateBoundaryForcesFirstSpec
  rw [if_neg (by norm_num [nearEngine] : ¬ (0.1:ℝ) < (100 - nearEngine.lastUpdateTime) / 1000)]
  have hdt : (100 - nearEngine.lastUpdateTime) / 1000 = (0.1:ℝ) := by
    norm_num [nearEngine]
  rw [hdt]
  have h1 : boundaryCheckStep { nearEngine with lastUpdateTime := 100 } 0 =
      { nearEngine with lastUpdateTime := 100 } := by
    unfold boundaryCheckStep
    rw [if_neg]
    simp [nearEngine, MAP_BOUNDARY_DISTANCE_CHECK_INTERVAL]
  simp only []
  rw [h1]
  rw [if_pos (by simp [nearEngine, nearStatus, MAP_BOUNDARY_ENABLED])]
  rw [nearEngine_forced, nearForced_physics]

/-- One idle update of `spinEngine`: the residual pitch angular velocity
rotates the aircraft to pitch `0.1`, and stabilization only multiplies that
by `0.97^6`. -/
theorem spinEngine_rotation_x :
    (update spinEngine 100 0).1.state.rotation.x = (1/10 : ℝ) * (97/100 : ℝ) ^ (6:ℝ) := by
  rw [update_run _ _ _
    (by norm_num [spinEngine, nearEngine] :
      ¬ (0.1:ℝ) < (100 - spinEngine.lastUpdateTime) / 1000)]
  have hdt : (100 - spinEngine.lastUpdateTime) / 1000 = (0.1:ℝ) := by
    norm_num [spinEngine, nearEngine]
  rw [hdt]
  have h1 : boundaryCheckStep { spinEngine with lastUpdateTime := 100 } 0 =
      { spinEngine with lastUpdateTime := 100 } := by
    unfold boundaryCheckStep
    rw [if_neg]
    simp [spinEngine, nearEngine, MAP_BOUNDARY_DISTANCE_CHECK_INTERVAL]
  simp only []
  rw [h1]
  rw [if_neg (by simp [updateAircraftPhysics_boundaryStatus, spinEngine, nearEngine,
    initialBoundaryStatus])]
  rw [updateAircraftPhysics_rotation]
  norm_num [stabilizeRotation, integrateRotation, spinEngine, nearEngine,
    ROLL_VELOCITY_THRESHOLD, STABILIZATION_RATE, PHYSICS_RATE]

/-- With no pitch/roll angular velocity, one integration-plus-stabilization
step cannot increase the pitch or roll magnitude. -/
theorem stabilize_integrate_abs_le (e : Engine) (dt now : ℝ)
    (hx : e.state.angularVelocity.x = 0) (hz : e.state.angularVelocity.z = 0)
    (hdt : 0 ≤ dt) :
    |(stabilizeRotation e (integrateRotation e.state dt now) dt).x| ≤
        |e.state.rotation.x| ∧
    |(stabilizeRotation e (integrateRotation e.state dt now) dt).z| ≤
        |e.state.rotation.z| := by
  have hint : integrateRotation e.state dt now =
      ⟨e.state.rotation.x, e.state.rotation.y + e.state.angularVelocity.y * dt,
       e.state.rotation.z⟩ := by
    unfold integrateRotation
    rw [hx, hz]
    rw [if_neg (by norm_num [ROLL_VELOCITY_THRESHOLD])]
    simp
  rw [hint]
  unfold stabilizeRotation
  split_ifs with hui
  · dsimp only
    exact ⟨le_refl _, le_refl _⟩
  · dsimp only
    have hf0 : (0:ℝ) ≤ (1 - STABILIZATION_RATE) ^ (dt * PHYSICS_RATE) :=
      Real.rpow_nonneg (by norm_num [STABILIZATION_RATE]) _
    have hf1 : (1 - STABILIZATION_RATE) ^ (dt * PHYSICS_RATE) ≤ 1 :=
      Real.rpow_le_one (by norm_num [STABILIZATION_RATE])
        (by norm_num [STABILIZATION_RATE])
        (mul_nonneg hdt (by norm_num [PHYSICS_RATE]))
    constructor
    · rw [abs_mul, abs_of_nonneg hf0]
      exact mul_le_of_le_one_right (abs_nonneg _) hf1
    · rw [abs_mul, abs_of_nonneg hf0]
      exact mul_le_of_le_one_right (abs_nonneg _) hf1

/-- One idle update tick: the throttle never increases, the pitch and roll
magnitudes never increase, and the pitch/roll angular velocities stay
zero. -/
theorem idle_step (e : Engine) (t now : ℝ)
    (hx : e.state.angularVelocity.x = 0) (hz : e.state.angularVelocity.z = 0)
    (hdt : 0 ≤ (t - e.lastUpdateTime) / 1000) :
    (update e t now).1.state.throttle ≤ e.state.throttle ∧
    |(update e t now).1.state.rotation.x| ≤ |e.state.rotation.x| ∧
    |(update e t now).1.state.rotation.z| ≤ |e.state.rotation.z| ∧
    (update e t now).1.state.angularVelocity.x = 0 ∧
    (update e t now).1.state.angularVelocity.z = 0 := by
  by_cases hskip : 0.1 < (t - e.lastUpdateTime) / 1000
  · rw [update_skip _ _ _ hskip]
    exact ⟨le_refl _, le_refl _, le_refl _, hx, hz⟩
  · rw [update_run _ _ _ hskip]
    simp only []
    set dt := (t - e.lastUpdateTime) / 1000 with hdtdef
    set e1 := boundaryCheckStep { e with lastUpdateTime := t } now with he1
    have h1rot : e1.state.rotation = e.state.rotation := boundaryCheckStep_rotation _ _
    have h1av : e1.state.angularVelocity = e.state.angularVelocity :=
      boundaryCheckStep_angularVelocity _ _
    have h1thr : e1.state.throttle = e.state.throttle := boundaryCheckStep_throttle _ _
    set e2 := updateAircraftPhysics e1 dt now with he2
    have h2thr : e2.state.throttle ≤ e.state.throttle := by
      rw [he2, updateAircraftPhysics_throttle]
      rw [← h1thr]
      exact decayThrottle_le _ _ hdt
    have h2rot : |e2.state.rotation.x| ≤ |e.state.rotation.x| ∧
        |e2.state.rotation.z| ≤ |e.state.rotation.z| := by
      rw [he2, updateAircraftPhysics_rotation]
      rw [← h1rot]
      exact stabilize_integrate_abs_le e1 dt now
        (by rw [h1av]; exact hx) (by rw [h1av]; exact hz) hdt
    have h2av : e2.state.angularVelocity.x = 0 ∧ e2.state.angularVelocity.z = 0 := by
      rw [he2, updateAircraftPhysics_angularVelocity]
      unfold dampAngularVelocity
      constructor
      · simp only []
        rw [h1av, hx, zero_mul]
      · simp only []
        rw [h1av, hz, zero_mul]
    by_cases hforce : MAP_BOUNDARY_ENABLED = true ∧
        (e2.boundaryStatus.isNearBoundary = true ∨
         e2.boundaryStatus.isCrossingBoundary = true)
    · rw [if_pos hforce]
      refine ⟨?_, ?_, ?_, ?_, ?_⟩
      · rw [applyBoundaryForces_throttle]
        exact h2thr
      · rw [applyBoundaryForces_rotation]
        exact h2rot.1
      · rw [applyBoundaryForces_rotation]
        exact h2rot.2
      · rw [applyBoundaryForces_angularVelocity]
        exact h2av.1
      · rw [applyBoundaryForces_angularVelocity]
        exact h2av.2
    · rw [if_neg hforce]
      exact ⟨h2thr, h2rot.1, h2rot.2, h2av.1, h2av.2⟩

/-- A max-min clamp lands in the interval. -/
theorem clamp_mem (lo hi x : ℝ) (h : lo ≤ hi) :
    lo ≤ max lo (min hi x) ∧ max lo (min hi x) ≤ hi :=
  ⟨le_max_left _ _, max_le h (min_le_left _ _)⟩

/-- processControls never touches the aircraft state record. -/
theorem processControls_state (e : Engine) (c : AircraftControls) :
    (processControls e c).1.state = e.state := by
  unfold processControls
  simp only []
  split_ifs <;> rfl

/-- applyControlInputs clamps the angular velocity and rotation, and keeps
the throttle inside `[0, MAX_THROTTLE]` whenever it was before. -/
theorem applyControlInputs_bounds (e : Engine) (c : AircraftControls)
    (h0 : 0 ≤ e.state.throttle) (h1 : e.state.throttle ≤ MAX_THROTTLE) :
    (|(applyControlInputs e c).state.angularVelocity.x| ≤ MAX_ANGULAR_VELOCITY ∧
     |(applyControlInputs e c).state.angularVelocity.y| ≤ MAX_ANGULAR_VELOCITY ∧
     |(applyControlInputs e c).state.angularVelocity.z| ≤ MAX_ANGULAR_VELOCITY) ∧
    (|(applyControlInputs e c).state.rotation.x| ≤ MAX_ROTATION ∧
     |(applyControlInputs e c).state.rotation.z| ≤ MAX_ROTATION) ∧
    (0 ≤ (applyControlInputs e c).state.throttle ∧
     (applyControlInputs e c).state.throttle ≤ MAX_THROTTLE) := by
  have hav : -MAX_ANGULAR_VELOCITY ≤ MAX_ANGULAR_VELOCITY := by
    norm_num [MAX_ANGULAR_VELOCITY]
  have hrot : -MAX_ROTATION ≤ MAX_ROTATION := by
    have := Real.pi_pos
    simp only [MAX_ROTATION]
    linarith
  have hth : (0:ℝ) ≤ MAX_THROTTLE := by norm_num [MAX_THROTTLE]
  unfold applyControlInputs
  dsimp only
  refine ⟨⟨?_, ?_, ?_⟩, ⟨?_, ?_⟩, ?_⟩
  · exact abs_le.mpr (clamp_mem _ _ _ hav)
  · exact abs_le.mpr (clamp_mem _ _ _ hav)
  · exact abs_le.mpr (clamp_mem _ _ _ hav)
  · exact abs_le.mpr (clamp_mem _ _ _ hrot)
  · exact abs_le.mpr (clamp_mem _ _ _ hrot)
  · split_ifs with hc
    · exact clamp_mem _ _ _ hth
    · rw [processControls_state]
      exact ⟨h0, h1⟩

/-- Any sequence of applyControlInputs preserves the throttle range. -/
theorem foldl_applyControlInputs_throttle (l : List AircraftControls) (e : Engine)
    (h0 : 0 ≤ e.state.throttle) (h1 : e.state.throttle ≤ MAX_THROTTLE) :
    0 ≤ (l.foldl applyControlInputs e).state.throttle ∧
    (l.foldl applyControlInputs e).state.throttle ≤ MAX_THROTTLE := by
  induction l generalizing e with
  | nil => exact ⟨h0, h1⟩
  | cons c l ih =>
    have := (applyControlInputs_bounds e c h0 h1).2.2
    exact ih (applyControlInputs e c) this.1 this.2

/-- jsAtan2 in the right half plane is the plain arctangent. -/
theorem jsAtan2_pos_x (y x : ℝ) (hx : 0 < x) :
    jsAtan2 y x = Real.arctan (y / x) := by
  unfold jsAtan2
  rw [if_pos hx]

/-- The JavaScript remainder of a nonnegative number by 360 lies in
`[0, 360)`. -/
theorem jsMod_nonneg_range (y : ℝ) (hy : 0 ≤ y) :
    0 ≤ jsMod y 360 ∧ jsMod y 360 < 360 := by
  have hq : 0 ≤ y / 360 := div_nonneg hy (by norm_num)
  unfold jsMod jsTrunc
  rw [if_pos hq]
  have key : y - 360 * (⌊y / 360⌋ : ℝ) = 360 * Int.fract (y / 360) := by
    rw [Int.fract]
    ring
  rw [key]
  constructor
  · exact mul_nonneg (by norm_num) (Int.fract_nonneg _)
  · have := Int.fract_lt_one (y / 360)
    linarith

/-- The JavaScript remainder by 360 is always greater than −360. -/
theorem jsMod_gt_neg (d : ℝ) : -360 < jsMod d 360 := by
  by_cases hq : 0 ≤ d / 360
  · have hd : 0 ≤ d := by
      have : d = 360 * (d / 360) := by ring
      rw [this]
      exact mul_nonneg (by norm_num) hq
    have := (jsMod_nonneg_range d hd).1
    linarith
  · unfold jsMod jsTrunc
    rw [if_neg hq]
    have hc := Int.ceil_lt_add_one (d / 360)
    have hinv : 360 * (d / 360) = d := by ring
    nlinarith [hc]

/-- Haversine distance along a meridian: a pure southward offset of `Δ`
degrees is `6371 · Δ · π/180` kilometres. -/
theorem geoDist_south (lng lat Δ : ℝ) (h0 : 0 ≤ Δ) (h1 : Δ < 180) :
    calculateGeoDistanceKm lng (lat - Δ) lng lat = 6371 * (Δ * (Real.pi / 180)) := by
  have hπ : (0:ℝ) < Real.pi := Real.pi_pos
  have hd : (0:ℝ) < Real.pi / 180 := by linarith
  set θ := Δ * (Real.pi / 180) / 2 with hθ
  have hθ0 : 0 ≤ θ := by
    rw [hθ]
    exact div_nonneg (mul_nonneg h0 (le_of_lt hd)) (by norm_num)
  have hθlt : θ < Real.pi / 2 := by
    rw [hθ]
    have h2 : Δ * (Real.pi / 180) < 180 * (Real.pi / 180) :=
      mul_lt_mul_of_pos_right h1 hd
    have h3 : (180:ℝ) * (Real.pi / 180) = Real.pi := by ring
    linarith
  have hsin : 0 ≤ Real.sin θ :=
    Real.sin_nonneg_of_nonneg_of_le_pi hθ0 (by linarith)
  have hcos : 0 < Real.cos θ := Real.cos_pos_of_mem_Ioo ⟨by linarith, hθlt⟩
  unfold calculateGeoDistanceKm degToRad
  dsimp only
  have e1 : (lat - (lat - Δ)) * (Real.pi / 180) / 2 = θ := by rw [hθ]; ring
  have e2 : (lng - lng) * (Real.pi / 180) / 2 = 0 := by ring
  rw [e1, e2, Real.sin_zero]
  rw [show Real.sin θ * Real.sin θ +
      Real.cos ((lat - Δ) * (Real.pi / 180)) * Real.cos (lat * (Real.pi / 180)) * 0 * 0 =
      Real.sin θ * Real.sin θ by ring]
  rw [Real.sqrt_mul_self hsin]
  rw [show 1 - Real.sin θ * Real.sin θ = Real.cos θ * Real.cos θ by
    nlinarith [Real.sin_sq_add_cos_sq θ]]
  rw [Real.sqrt_mul_self (le_of_lt hcos)]
  rw [jsAtan2_pos_x _ _ hcos]
  rw [← Real.tan_eq_sin_div_cos, Real.arctan_tan (by linarith) hθlt]
  rw [hθ]
  ring

/-! ### Claim theorems -/

/-- C5: for every sequence of control inputs, after any applyControlInputs
call each angularVelocity component lies in
`[−MAX_ANGULAR_VELOCITY, MAX_ANGULAR_VELOCITY]`, the pitch and roll rotation
components lie in `[−MAX_ROTATION, MAX_ROTATION]`, and the throttle lies in
`[0, MAX_THROTTLE]` (given that the starting throttle is in range, as it is
for the constructor state). -/
theorem C5_clamping (e : Engine) (l : List AircraftControls) (c : AircraftControls)
    (h0 : 0 ≤ e.state.throttle) (h1 : e.state.throttle ≤ MAX_THROTTLE) :
    (|(applyControlInputs (l.foldl applyControlInputs e) c).state.angularVelocity.x| ≤
        MAX_ANGULAR_VELOCITY ∧
     |(applyControlInputs (l.foldl applyControlInputs e) c).state.angularVelocity.y| ≤
        MAX_ANGULAR_VELOCITY ∧
     |(applyControlInputs (l.foldl applyControlInputs e) c).state.angularVelocity.z| ≤
        MAX_ANGULAR_VELOCITY) ∧
    (|(applyControlInputs (l.foldl applyControlInputs e) c).state.rotation.x| ≤
        MAX_ROTATION ∧
     |(applyControlInputs (l.foldl applyControlInputs e) c).state.rotation.z| ≤
        MAX_ROTATION) ∧
    (0 ≤ (applyControlInputs (l.foldl applyControlInputs e) c).state.throttle ∧
     (applyControlInputs (l.foldl applyControlInputs e) c).state.throttle ≤
        MAX_THROTTLE) := by
  have hr := foldl_applyControlInputs_throttle l e h0 h1
  exact applyControlInputs_bounds _ c hr.1 hr.2

/-- Witness for C5 at the constructor state with the zero input. -/
theorem C5_clamping_witness :
    0 ≤ (initEngine 72 0).state.throttle ∧
    (initEngine 72 0).state.throttle ≤ MAX_THROTTLE ∧
    (0 ≤ (applyControlInputs (List.foldl applyControlInputs (initEngine 72 0) [])
        zeroControls).state.throttle ∧
     (applyControlInputs (List.foldl applyControlInputs (initEngine 72 0) [])
        zeroControls).state.throttle ≤ MAX_THROTTLE) := by
  have h0 : 0 ≤ (initEngine 72 0).state.throttle := by
    rw [show (initEngine 72 0).state.throttle = 0 from rfl]
  have h1 : (initEngine 72 0).state.throttle ≤ MAX_THROTTLE := by
    rw [show (initEngine 72 0).state.throttle = 0 from rfl]
    norm_num [MAX_THROTTLE]
  exact ⟨h0, h1, (C5_clamping (initEngine 72 0) [] zeroControls h0 h1).2.2⟩

/-- C6: position.y is at least 0 after every update (given a legal starting
altitude, which even the skipped-frame branch preserves), and the ground
collision handler clamps `position.y` to 0, bounces with 10% of the impact
vertical speed plus horizontal drag exactly when the impact vertical
velocity is below −0.5, and otherwise zeroes the vertical velocity. -/
theorem C6_ground_clamp :
    (∀ (e : Engine) (t now : ℝ), 0 ≤ e.state.position.y →
        0 ≤ (update e t now).1.state.position.y) ∧
    (∀ p v : Vec3, p.y < 0 →
        (groundCollision p v).1.y = 0 ∧
        (v.y < -0.5 → (groundCollision p v).2 = ⟨v.x * 0.8, |v.y| * 0.1, v.z * 0.8⟩) ∧
        (¬ v.y < -0.5 → (groundCollision p v).2 = ⟨v.x, 0, v.z⟩)) := by
  constructor
  · intro e t now hy
    by_cases hskip : 0.1 < (t - e.lastUpdateTime) / 1000
    · rw [update_skip _ _ _ hskip]
      exact hy
    · rw [update_run _ _ _ hskip]
      simp only []
      by_cases hf : MAP_BOUNDARY_ENABLED = true ∧
          ((updateAircraftPhysics (boundaryCheckStep { e with lastUpdateTime := t } now)
              ((t - e.lastUpdateTime) / 1000) now).boundaryStatus.isNearBoundary = true ∨
           (updateAircraftPhysics (boundaryCheckStep { e with lastUpdateTime := t } now)
              ((t - e.lastUpdateTime) / 1000) now).boundaryStatus.isCrossingBoundary = true)
      · rw [if_pos hf]
        show 0 ≤ (applyBoundaryForces _ _).state.position.y
        rw [applyBoundaryForces_position]
        exact updateAircraftPhysics_y_nonneg _ _ _
      · rw [if_neg hf]
        exact updateAircraftPhysics_y_nonneg _ _ _
  · intro p v hp
    refine ⟨?_, ?_, ?_⟩
    · unfold groundCollision
      rw [if_pos hp]
      split_ifs <;> rfl
    · intro hv
      unfold groundCollision
      rw [if_pos hp, if_pos hv]
    · intro hv
      unfold groundCollision
      rw [if_pos hp, if_neg hv]

/-- Witness for C6: the constructor state sits at ground level and stays
above ground through an update; a hard impact at `v.y = −2` bounces. -/
theorem C6_ground_clamp_witness :
    (0 ≤ (initEngine 72 0).state.position.y ∧
     0 ≤ (update (initEngine 72 0) 1000 0).1.state.position.y) ∧
    ((⟨0, -1, 0⟩ : Vec3).y < 0 ∧
     (groundCollision ⟨0, -1, 0⟩ ⟨3, -2, 1⟩).1.y = 0 ∧
     (groundCollision ⟨0, -1, 0⟩ ⟨3, -2, 1⟩).2 =
       ⟨(3:ℝ) * 0.8, |(-2:ℝ)| * 0.1, (1:ℝ) * 0.8⟩) := by
  have h0 : 0 ≤ (initEngine 72 0).state.position.y := by
    rw [show (initEngine 72 0).state.position.y = 0 from rfl]
  have hp : (⟨0, -1, 0⟩ : Vec3).y < 0 := by norm_num
  have hv : (⟨3, -2, 1⟩ : Vec3).y < -0.5 := by norm_num
  exact ⟨⟨h0, C6_ground_clamp.1 (initEngine 72 0) 1000 0 h0⟩,
    hp, (C6_ground_clamp.2 _ _ hp).1, (C6_ground_clamp.2 _ _ hp).2.1 hv⟩

/-- C7: when the computed delta exceeds 0.1 seconds the whole physics step
is skipped — every engine field is unchanged except the recorded timestamp,
and no listener is notified. -/
theorem C7_large_delta_skip (e : Engine) (t now : ℝ)
    (h : 0.1 < (t - e.lastUpdateTime) / 1000) :
    update e t now = ({ e with lastUpdateTime := t }, none) :=
  update_skip e t now h

/-- Witness for C7 at the constructor state with a one-second delta. -/
theorem C7_large_delta_skip_witness :
    (0.1:ℝ) < (1000 - (initEngine 72 0).lastUpdateTime) / 1000 ∧
    update (initEngine 72 0) 1000 5 =
      ({ initEngine 72 0 with lastUpdateTime := 1000 }, none) := by
  have h : (0.1:ℝ) < (1000 - (initEngine 72 0).lastUpdateTime) / 1000 := by
    rw [show (initEngine 72 0).lastUpdateTime = 0 from rfl]
    norm_num
  exact ⟨h, C7_large_delta_skip _ _ _ h⟩

/-- C8: recomputing the boundary status for a map position at haversine
distance 0.5R from the center yields neither the near-boundary nor the
crossing flag; at 0.9R (warning threshold 0.85) the near flag is set; at
1.1R the crossing flag is set. -/
theorem C8_boundary_detection (e₁ e₂ e₃ : Engine)
    (h₁ : calculateGeoDistanceKm e₁.state.mapPosition.lng e₁.state.mapPosition.lat
        DEFAULT_CENTER.lng DEFAULT_CENTER.lat = 0.5 * MAP_BOUNDARY_RADIUS_KM)
    (h₂ : calculateGeoDistanceKm e₂.state.mapPosition.lng e₂.state.mapPosition.lat
        DEFAULT_CENTER.lng DEFAULT_CENTER.lat = 0.9 * MAP_BOUNDARY_RADIUS_KM)
    (h₃ : calculateGeoDistanceKm e₃.state.mapPosition.lng e₃.state.mapPosition.lat
        DEFAULT_CENTER.lng DEFAULT_CENTER.lat = 1.1 * MAP_BOUNDARY_RADIUS_KM) :
    ((updateBoundaryStatus e₁).boundaryStatus.isNearBoundary = false ∧
     (updateBoundaryStatus e₁).boundaryStatus.isCrossingBoundary = false) ∧
    (updateBoundaryStatus e₂).boundaryStatus.isNearBoundary = true ∧
    (updateBoundaryStatus e₃).boundaryStatus.isCrossingBoundary = true := by
  refine ⟨⟨?_, ?_⟩, ?_, ?_⟩
  · unfold updateBoundaryStatus
    rw [if_pos (show MAP_BOUNDARY_ENABLED = true from rfl)]
    dsimp only
    rw [h₁]
    norm_num [MAP_BOUNDARY_RADIUS_KM, MAP_BOUNDARY_WARNING_THRESHOLD]
  · unfold updateBoundaryStatus
    rw [if_pos (show MAP_BOUNDARY_ENABLED = true from rfl)]
    dsimp only
    rw [h₁]
    norm_num [MAP_BOUNDARY_RADIUS_KM]
  · unfold updateBoundaryStatus
    rw [if_pos (show MAP_BOUNDARY_ENABLED = true from rfl)]
    dsimp only
    rw [h₂]
    norm_num [MAP_BOUNDARY_RADIUS_KM, MAP_BOUNDARY_WARNING_THRESHOLD]
  · unfold updateBoundaryStatus
    rw [if_pos (show MAP_BOUNDARY_ENABLED = true from rfl)]
    dsimp only
    rw [h₃]
    norm_num [MAP_BOUNDARY_RADIUS_KM]

/-- Witness for C8: three concrete map positions due south of the center at
exactly 5, 9 and 11 kilometres of haversine distance. -/
theorem C8_boundary_detection_witness :
    calculateGeoDistanceKm
        (mapEngine ⟨106.636, 10.811 - 900 / (6371 * Real.pi)⟩).state.mapPosition.lng
        (mapEngine ⟨106.636, 10.811 - 900 / (6371 * Real.pi)⟩).state.mapPosition.lat
        DEFAULT_CENTER.lng DEFAULT_CENTER.lat = 0.5 * MAP_BOUNDARY_RADIUS_KM ∧
    calculateGeoDistanceKm
        (mapEngine ⟨106.636, 10.811 - 1620 / (6371 * Real.pi)⟩).state.mapPosition.lng
        (mapEngine ⟨106.636, 10.811 - 1620 / (6371 * Real.pi)⟩).state.mapPosition.lat
        DEFAULT_CENTER.lng DEFAULT_CENTER.lat = 0.9 * MAP_BOUNDARY_RADIUS_KM ∧
    calculateGeoDistanceKm
        (mapEngine ⟨106.636, 10.811 - 1980 / (6371 * Real.pi)⟩).state.mapPosition.lng
        (mapEngine ⟨106.636, 10.811 - 1980 / (6371 * Real.pi)⟩).state.mapPosition.lat
        DEFAULT_CENTER.lng DEFAULT_CENTER.lat = 1.1 * MAP_BOUNDARY_RADIUS_KM ∧
    ((updateBoundaryStatus
        (mapEngine ⟨106.636, 10.811 - 900 / (6371 * Real.pi)⟩)).boundaryStatus.isNearBoundary
          = false ∧
     (updateBoundaryStatus
        (mapEngine ⟨106.636, 10.811 - 900 / (6371 * Real.pi)⟩)).boundaryStatus.isCrossingBoundary
          = false) ∧
    (updateBoundaryStatus
        (mapEngine ⟨106.636, 10.811 - 1620 / (6371 * Real.pi)⟩)).boundaryStatus.isNearBoundary
          = true ∧
    (updateBoundaryStatus
        (mapEngine ⟨106.636, 10.811 - 1980 / (6371 * Real.pi)⟩)).boundaryStatus.isCrossingBoundary
          = true := by
  have hπ : (0:ℝ) < Real.pi := Real.pi_pos
  have hden : (0:ℝ) < 6371 * Real.pi := by nlinarith
  have hdist : ∀ a : ℝ, 0 < a → a < 19000 →
      calculateGeoDistanceKm (106.636:ℝ) (10.811 - a / (6371 * Real.pi))
        (106.636:ℝ) (10.811:ℝ) = a / 180 := by
    intro a ha ha2
    have h0 : 0 ≤ a / (6371 * Real.pi) := le_of_lt (div_pos ha hden)
    have h1 : a / (6371 * Real.pi) < 180 := by
      have hb : a / (6371 * Real.pi) < 1 := by
        rw [div_lt_one hden]
        nlinarith [Real.pi_gt_three]
      linarith
    rw [geoDist_south _ _ _ h0 h1]
    field_simp
    ring
  have w₁ := hdist 900 (by norm_num) (by norm_num)
  have w₂ := hdist 1620 (by norm_num) (by norm_num)
  have w₃ := hdist 1980 (by norm_num) (by norm_num)
  have g₁ : calculateGeoDistanceKm
      (mapEngine ⟨106.636, 10.811 - 900 / (6371 * Real.pi)⟩).state.mapPosition.lng
      (mapEngine ⟨106.636, 10.811 - 900 / (6371 * Real.pi)⟩).state.mapPosition.lat
      DEFAULT_CENTER.lng DEFAULT_CENTER.lat = 0.5 * MAP_BOUNDARY_RADIUS_KM := by
    show calculateGeoDistanceKm (106.636:ℝ) (10.811 - 900 / (6371 * Real.pi))
      (106.636:ℝ) (10.811:ℝ) = 0.5 * MAP_BOUNDARY_RADIUS_KM
    rw [w₁]
    norm_num [MAP_BOUNDARY_RADIUS_KM]
  have g₂ : calculateGeoDistanceKm
      (mapEngine ⟨106.636, 10.811 - 1620 / (6371 * Real.pi)⟩).state.mapPosition.lng
      (mapEngine ⟨106.636, 10.811 - 1620 / (6371 * Real.pi)⟩).state.mapPosition.lat
      DEFAULT_CENTER.lng DEFAULT_CENTER.lat = 0.9 * MAP_BOUNDARY_RADIUS_KM := by
    show calculateGeoDistanceKm (106.636:ℝ) (10.811 - 1620 / (6371 * Real.pi))
      (106.636:ℝ) (10.811:ℝ) = 0.9 * MAP_BOUNDARY_RADIUS_KM
    rw [w₂]
    norm_num [MAP_BOUNDARY_RADIUS_KM]
  have g₃ : calculateGeoDistanceKm
      (mapEngine ⟨106.636, 10.811 - 1980 / (6371 * Real.pi)⟩).state.mapPosition.lng
      (mapEngine ⟨106.636, 10.811 - 1980 / (6371 * Real.pi)⟩).state.mapPosition.lat
      DEFAULT_CENTER.lng DEFAULT_CENTER.lat = 1.1 * MAP_BOUNDARY_RADIUS_KM := by
    show calculateGeoDistanceKm (106.636:ℝ) (10.811 - 1980 / (6371 * Real.pi))
      (106.636:ℝ) (10.811:ℝ) = 1.1 * MAP_BOUNDARY_RADIUS_KM
    rw [w₃]
    norm_num [MAP_BOUNDARY_RADIUS_KM]
  exact ⟨g₁, g₂, g₃, C8_boundary_detection _ _ _ g₁ g₂ g₃⟩

/-- C10: setHeading(d) stores `((d % 360) + 360) % 360` (JavaScript
remainder) as the heading, which lies in `[0, 360)`, writes its radian
conversion into `rotation.y`, synchronously notifies the listeners with the
updated snapshot, and leaves every other state field unchanged. -/
theorem C10_setHeading_normalizes (e : Engine) (d : ℝ) :
    (setHeading e d).1.state.heading = jsMod (jsMod d 360 + 360) 360 ∧
    (0 ≤ (setHeading e d).1.state.heading ∧ (setHeading e d).1.state.heading < 360) ∧
    (setHeading e d).1.state.rotation.y = degToRad ((setHeading e d).1.state.heading) ∧
    (setHeading e d).2 = (setHeading e d).1.state ∧
    ((setHeading e d).1.state.rotation.x = e.state.rotation.x ∧
     (setHeading e d).1.state.rotation.z = e.state.rotation.z ∧
     (setHeading e d).1.state.position = e.state.position ∧
     (setHeading e d).1.state.velocity = e.state.velocity ∧
     (setHeading e d).1.state.angularVelocity = e.state.angularVelocity ∧
     (setHeading e d).1.state.throttle = e.state.throttle ∧
     (setHeading e d).1.state.speed = e.state.speed ∧
     (setHeading e d).1.state.altitude = e.state.altitude ∧
     (setHeading e d).1.state.pitch = e.state.pitch ∧
     (setHeading e d).1.state.roll = e.state.roll ∧
     (setHeading e d).1.state.isFlying = e.state.isFlying ∧
     (setHeading e d).1.state.isGrounded = e.state.isGrounded ∧
     (setHeading e d).1.state.mapPosition = e.state.mapPosition ∧
     (setHeading e d).1.state.boundaryStatus = e.state.boundaryStatus) ∧
    ((setHeading e d).1.bankAngle = e.bankAngle ∧
     (setHeading e d).1.prevControls = e.prevControls ∧
     (setHeading e d).1.lastUpdateTime = e.lastUpdateTime ∧
     (setHeading e d).1.boundaryStatus = e.boundaryStatus ∧
     (setHeading e d).1.hasUserInput = e.hasUserInput) := by
  have hu : 0 ≤ jsMod d 360 + 360 := by
    have := jsMod_gt_neg d
    linarith
  refine ⟨rfl, ?_, rfl, rfl,
    ⟨rfl, rfl, rfl, rfl, rfl, rfl, rfl, rfl, rfl, rfl, rfl, rfl, rfl, rfl⟩,
    ⟨rfl, rfl, rfl, rfl, rfl⟩⟩
  exact jsMod_nonneg_range _ hu

/-- Counterexample for C1: starting from `nearEngine` (inside the warning
band with the speed already at the cap after drag), one update leaves the
velocity at length 2.45 > MAX_SPEED, because the boundary force is added
after the speed clamp. -/
theorem C1_speed_cap_counterexample :
    MAX_SPEED < norm3 (update nearEngine 100 0).1.state.velocity := by
  rw [nearEngine_update]
  rw [show (nearResult, some nearResult.state).1.state.velocity = ⟨(2.45:ℝ), 0, 0⟩ from rfl]
  rw [norm3_single _ (by norm_num)]
  norm_num [MAX_SPEED]

/-- C1 (amended): |velocity| ≤ MAX_SPEED after every update in which no
boundary force is applied — the cached status after the boundary check is
neither near nor crossing — given that the invariant held before (the
skipped-frame branch leaves the velocity untouched). -/
theorem C1_speed_cap_amended (e : Engine) (t now : ℝ)
    (hv : norm3 e.state.velocity ≤ MAX_SPEED)
    (hb : ¬ ((boundaryCheckStep { e with lastUpdateTime := t } now).boundaryStatus.isNearBoundary = true ∨
        (boundaryCheckStep { e with lastUpdateTime := t } now).boundaryStatus.isCrossingBoundary = true)) :
    norm3 (update e t now).1.state.velocity ≤ MAX_SPEED := by
  by_cases hskip : 0.1 < (t - e.lastUpdateTime) / 1000
  · rw [update_skip _ _ _ hskip]
    exact hv
  · rw [update_run _ _ _ hskip]
    simp only []
    rw [if_neg]
    · exact updateAircraftPhysics_norm_le _ _ _
    · intro hc
      have := hc.2
      rw [updateAircraftPhysics_boundaryStatus] at this
      exact hb this

/-- Witness for C1 (amended) at the constructor state, far from the
boundary. -/
theorem C1_speed_cap_amended_witness :
    norm3 (initEngine 72 0).state.velocity ≤ MAX_SPEED ∧
    norm3 (update (initEngine 72 0) 50 0).1.state.velocity ≤ MAX_SPEED := by
  have hv : norm3 (initEngine 72 0).state.velocity ≤ MAX_SPEED := by
    rw [show (initEngine 72 0).state.velocity = ⟨0, 0, 0⟩ from rfl, norm3_zero]
    norm_num [MAX_SPEED]
  refine ⟨hv, C1_speed_cap_amended _ _ _ hv ?_⟩
  have hstep : boundaryCheckStep { initEngine 72 0 with lastUpdateTime := 50 } 0 =
      { initEngine 72 0 with lastUpdateTime := 50 } := by
    unfold boundaryCheckStep
    rw [if_neg]
    simp [initEngine, MAP_BOUNDARY_DISTANCE_CHECK_INTERVAL]
  rw [hstep]
  simp [initEngine, initialBoundaryStatus]

/-- Counterexample for C3: on `nearEngine` the code's update (integrate
first, then boundary force) ends with velocity.x = 2.45, while the spec's
claimed order (boundary force before integration) would end with
velocity.x = 2. -/
theorem C3_order_counterexample :
    (update nearEngine 100 0).1.state.velocity.x ≠
      (updateBoundaryForcesFirstSpec nearEngine 100 0).1.state.velocity.x := by
  rw [nearEngine_update, nearEngine_specOrder]
  rw [show (nearResult, some nearResult.state).1.state.velocity.x = (2.45:ℝ) from rfl]
  norm_num

/-- C3 (amended): within an update whose cached boundary status is near or
crossing, the boundary forces are applied to the state AFTER the aircraft
force integration of that tick (and before the listener notification). -/
theorem C3_order_amended (e : Engine) (t now : ℝ)
    (hskip : ¬ 0.1 < (t - e.lastUpdateTime) / 1000)
    (hnear : (boundaryCheckStep { e with lastUpdateTime := t } now).boundaryStatus.isNearBoundary = true ∨
        (boundaryCheckStep { e with lastUpdateTime := t } now).boundaryStatus.isCrossingBoundary = true) :
    (update e t now).1 =
      { applyBoundaryForces
          (updateAircraftPhysics (boundaryCheckStep { e with lastUpdateTime := t } now)
            ((t - e.lastUpdateTime) / 1000) now)
          ((t - e.lastUpdateTime) / 1000) with hasUserInput := false } := by
  rw [update_run _ _ _ hskip]
  simp only []
  rw [if_pos]
  constructor
  · rfl
  · rw [updateAircraftPhysics_boundaryStatus]
    exact hnear

/-- Witness for C3 (amended) at `nearEngine`. -/
theorem C3_order_amended_witness :
    (¬ (0.1:ℝ) < (100 - nearEngine.lastUpdateTime) / 1000) ∧
    (update nearEngine 100 0).1 =
      { applyBoundaryForces
          (updateAircraftPhysics (boundaryCheckStep { nearEngine with lastUpdateTime := 100 } 0)
            ((100 - nearEngine.lastUpdateTime) / 1000) 0)
          ((100 - nearEngine.lastUpdateTime) / 1000) with hasUserInput := false } := by
  have h1 : ¬ (0.1:ℝ) < (100 - nearEngine.lastUpdateTime) / 1000 := by
    norm_num [nearEngine]
  have hstep : boundaryCheckStep { nearEngine with lastUpdateTime := 100 } 0 =
      { nearEngine with lastUpdateTime := 100 } := by
    unfold boundaryCheckStep
    rw [if_neg]
    simp [nearEngine, MAP_BOUNDARY_DISTANCE_CHECK_INTERVAL]
  have h2 : (boundaryCheckStep { nearEngine with lastUpdateTime := 100 } 0).boundaryStatus.isNearBoundary = true := by
    rw [hstep]
    rfl
  exact ⟨h1, C3_order_amended _ _ _ h1 (Or.inl h2)⟩

/-- Counterexample for C4: after one update of `nearEngine`, the `speed`
field holds the pre-force value 0.95 while the velocity length is 2.45. -/
theorem C4_speed_field_counterexample :
    (update nearEngine 100 0).1.state.speed ≠
      norm3 (update nearEngine 100 0).1.state.velocity := by
  rw [nearEngine_update]
  rw [show (nearResult, some nearResult.state).1.state.speed = (0.95:ℝ) from rfl]
  rw [show (nearResult, some nearResult.state).1.state.velocity = ⟨(2.45:ℝ), 0, 0⟩ from rfl]
  rw [norm3_single _ (by norm_num)]
  norm_num

/-- C4 (amended): `speed = |velocity|` holds after every update in which no
boundary force is applied (near/crossing after the check), given it held
before (the skipped-frame branch changes neither field). -/
theorem C4_speed_field_amended (e : Engine) (t now : ℝ)
    (hs : e.state.speed = norm3 e.state.velocity)
    (hb : ¬ ((boundaryCheckStep { e with lastUpdateTime := t } now).boundaryStatus.isNearBoundary = true ∨
        (boundaryCheckStep { e with lastUpdateTime := t } now).boundaryStatus.isCrossingBoundary = true)) :
    (update e t now).1.state.speed = norm3 (update e t now).1.state.velocity := by
  by_cases hskip : 0.1 < (t - e.lastUpdateTime) / 1000
  · rw [update_skip _ _ _ hskip]
    exact hs
  · rw [update_run _ _ _ hskip]
    simp only []
    rw [if_neg]
    · exact updateAircraftPhysics_speed_eq _ _ _
    · intro hc
      have := hc.2
      rw [updateAircraftPhysics_boundaryStatus] at this
      exact hb this

/-- Witness for C4 (amended) at the constructor state. -/
theorem C4_speed_field_amended_witness :
    (initEngine 72 0).state.speed = norm3 (initEngine 72 0).state.velocity ∧
    (update (initEngine 72 0) 60 0).1.state.speed =
      norm3 (update (initEngine 72 0) 60 0).1.state.velocity := by
  have hs : (initEngine 72 0).state.speed = norm3 (initEngine 72 0).state.velocity := by
    rw [show (initEngine 72 0).state.velocity = ⟨0, 0, 0⟩ from rfl, norm3_zero]
    rfl
  refine ⟨hs, C4_speed_field_amended _ _ _ hs ?_⟩
  have hstep : boundaryCheckStep { initEngine 72 0 with lastUpdateTime := 60 } 0 =
      { initEngine 72 0 with lastUpdateTime := 60 } := by
    unfold boundaryCheckStep
    rw [if_neg]
    simp [initEngine, MAP_BOUNDARY_DISTANCE_CHECK_INTERVAL]
  rw [hstep]
  simp [initEngine, initialBoundaryStatus]

/-- Counterexample for C9: with residual pitch angular velocity 1 rad/s and
level rotation, one idle tick increases the pitch magnitude from 0 to
`0.1 · 0.97^6 > 0`, so the pitch magnitude is not non-increasing for every
starting state. -/
theorem C9_idle_decay_counterexample :
    |(idleRun spinEngine 0.1 (fun _ => 0) 0).state.rotation.x| <
      |(idleRun spinEngine 0.1 (fun _ => 0) 1).state.rotation.x| := by
  have h1 : idleRun spinEngine 0.1 (fun _ => 0) 1 =
      (update spinEngine (spinEngine.lastUpdateTime + 1000 * 0.1) 0).1 := rfl
  have h2 : spinEngine.lastUpdateTime + 1000 * 0.1 = (100:ℝ) := by
    norm_num [spinEngine, nearEngine]
  rw [h1, h2, spinEngine_rotation_x]
  rw [show (idleRun spinEngine 0.1 (fun _ => 0) 0).state.rotation.x = (0:ℝ) from rfl]
  rw [abs_zero]
  have hp : (0:ℝ) < (97/100 : ℝ) ^ (6:ℝ) :=
    Real.rpow_pos_of_pos (by norm_num) _
  rw [abs_of_pos (by linarith)]
  linarith

/-- C9 (amended): under idle ticks with a fixed nonnegative time step the
throttle is non-increasing tick over tick, and the pitch/roll rotation
magnitudes are non-increasing provided the starting pitch and roll angular
velocities are zero (with residual angular velocity the magnitude can
grow, see the counterexample). -/
theorem C9_idle_decay_amended (e : Engine) (delta : ℝ) (nowAt : ℕ → ℝ) (n : ℕ)
    (hδ : 0 ≤ delta)
    (hx : e.state.angularVelocity.x = 0) (hz : e.state.angularVelocity.z = 0) :
    (idleRun e delta nowAt (n + 1)).state.throttle ≤
        (idleRun e delta nowAt n).state.throttle ∧
    |(idleRun e delta nowAt (n + 1)).state.rotation.x| ≤
        |(idleRun e delta nowAt n).state.rotation.x| ∧
    |(idleRun e delta nowAt (n + 1)).state.rotation.z| ≤
        |(idleRun e delta nowAt n).state.rotation.z| := by
  have hdt : ∀ p : Engine,
      0 ≤ (p.lastUpdateTime + 1000 * delta - p.lastUpdateTime) / 1000 := by
    intro p
    have h : (p.lastUpdateTime + 1000 * delta - p.lastUpdateTime) / 1000 = delta := by
      ring
    rw [h]
    exact hδ
  have hinv : ∀ m, (idleRun e delta nowAt m).state.angularVelocity.x = 0 ∧
      (idleRun e delta nowAt m).state.angularVelocity.z = 0 := by
    intro m
    induction m with
    | zero => exact ⟨hx, hz⟩
    | succ k ih =>
      have hstep := idle_step (idleRun e delta nowAt k)
        ((idleRun e delta nowAt k).lastUpdateTime + 1000 * delta) (nowAt k)
        ih.1 ih.2 (hdt _)
      rw [show idleRun e delta nowAt (k + 1) =
        (update (idleRun e delta nowAt k)
          ((idleRun e delta nowAt k).lastUpdateTime + 1000 * delta) (nowAt k)).1 from rfl]
      exact ⟨hstep.2.2.2.1, hstep.2.2.2.2⟩
  have hstep := idle_step (idleRun e delta nowAt n)
    ((idleRun e delta nowAt n).lastUpdateTime + 1000 * delta) (nowAt n)
    (hinv n).1 (hinv n).2 (hdt _)
  rw [show idleRun e delta nowAt (n + 1) =
    (update (idleRun e delta nowAt n)
      ((idleRun e delta nowAt n).lastUpdateTime + 1000 * delta) (nowAt n)).1 from rfl]
  exact ⟨hstep.1, hstep.2.1, hstep.2.2.1⟩

/-- Witness for C9 (amended) at the constructor state with a 50 ms step. -/
theorem C9_idle_decay_amended_witness :
    (0:ℝ) ≤ 0.05 ∧
    (initEngine 72 0).state.angularVelocity.x = 0 ∧
    (initEngine 72 0).state.angularVelocity.z = 0 ∧
    ((idleRun (initEngine 72 0) 0.05 (fun _ => 0) 1).state.throttle ≤
        (idleRun (initEngine 72 0) 0.05 (fun _ => 0) 0).state.throttle ∧
     |(idleRun (initEngine 72 0) 0.05 (fun _ => 0) 1).state.rotation.x| ≤
        |(idleRun (initEngine 72 0) 0.05 (fun _ => 0) 0).state.rotation.x| ∧
     |(idleRun (initEngine 72 0) 0.05 (fun _ => 0) 1).state.rotation.z| ≤
        |(idleRun (initEngine 72 0) 0.05 (fun _ => 0) 0).state.rotation.z|) := by
  have h1 : (0:ℝ) ≤ 0.05 := by norm_num
  have h2 : (initEngine 72 0).state.angularVelocity.x = 0 := rfl
  have h3 : (initEngine 72 0).state.angularVelocity.z = 0 := rfl
  exact ⟨h1, h2, h3, C9_idle_decay_amended (initEngine 72 0) 0.05 (fun _ => 0) 0 h1 h2 h3⟩

/-- Counterexample for C2: `getState` is the shallow spread
`{ ...this.state }`, so a listener writing through the `position` object of
the snapshot it received changes the position the engine itself observes. -/
theorem C2_snapshot_counterexample :
    RefModel.enginePosition RefModel.sampleEngine
        (RefModel.writeVec RefModel.sampleHeap
          (RefModel.getState RefModel.sampleEngine).positionRef ⟨99, 0, 0⟩) ≠
      RefModel.enginePosition RefModel.sampleEngine RefModel.sampleHeap := by
  norm_num [RefModel.enginePosition, RefModel.writeVec, RefModel.getState,
    RefModel.sampleEngine, RefModel.sampleHeap, Vec3.mk.injEq]

/-- C2 (amended): the snapshot handed to listeners is a shallow copy — its
top-level scalar fields are copies, but its `position` / `velocity` /
`rotation` fields are the very references held by the engine, so a listener
mutation through any of those objects is observed by the engine as well. -/
theorem C2_snapshot_amended (e : RefModel.EngineObj) (h : RefModel.Heap) (w : Vec3) :
    ((RefModel.getState e).positionRef = e.state.positionRef ∧
     (RefModel.getState e).velocityRef = e.state.velocityRef ∧
     (RefModel.getState e).rotationRef = e.state.rotationRef) ∧
    RefModel.enginePosition e
        (RefModel.writeVec h (RefModel.getState e).positionRef w) = w ∧
    RefModel.engineVelocity e
        (RefModel.writeVec h (RefModel.getState e).velocityRef w) = w ∧
    RefModel.engineRotation e
        (RefModel.writeVec h (RefModel.getState e).rotationRef w) = w ∧
    ((RefModel.getState e).speed = e.state.speed ∧
     (RefModel.getState e).throttle = e.state.throttle ∧
     (RefModel.getState e).heading = e.state.heading) := by
  refine ⟨⟨rfl, rfl, rfl⟩, ?_, ?_, ?_, ⟨rfl, rfl, rfl⟩⟩ <;>
    simp [RefModel.enginePosition, RefModel.engineVelocity, RefModel.engineRotation,
      RefModel.writeVec, RefModel.getState]
